import Mathlib

set_option maxRecDepth 100000

/-!
Verification of the DOM analyzer of the wireframer repository
(`src/analyzer.ts`), shallowly embedded in Lean 4.

Modelling conventions:
* JavaScript numbers (element geometry, areas, thresholds) are embedded as
  exact rationals `ℚ`; decimal literals such as `0.85` denote the exact
  rational `85/100`.
* Strings are Lean `String`s; `String.length` models JS `.length` (the inputs
  considered are ASCII, where the two agree).
* A DOM element is an immutable record `Elem` carrying the host data the
  analyzer reads (tag name, id, class string, role, computed style, client
  rect, text content) plus its ordered children.  Tag names are stored
  lowercase, modelling `el.tagName.toLowerCase()`.
* `instanceof HTMLElement` / `instanceof SVGElement` are modelled by the
  `kind` field (`EKind.html` / `EKind.svg`; `EKind.other` for other
  namespaces).  An SVG element's `className` is an `SVGAnimatedString`
  (`typeof className !== "string"`), modelled by `classStr` returning `none`
  for non-HTML elements.
* `window` state (scroll offsets, viewport, page heights, URL, clock) is an
  explicit `Env` record threaded through the functions that read it.
* The regular expressions of the source are embedded as values of a small
  regex AST `RE` with an executable matcher; `RE.test` models
  `RegExp.prototype.test` (existence of a match at some position).
* Each element carries a ghost field `docPos`, its document-order position;
  it influences no computation and is only used to state ordering
  properties.  Likewise `WireframeNode` carries a ghost `srcPos` recording
  the `docPos` of the source element it was materialized from.
* The process-wide node-id counter and the resulting `id` field of
  `WireframeNode` are omitted: the spec treats ids as opaque per-run values
  and no verified property concerns them.
-/

/-! ## A small regex AST and matcher -/

/-- JS `\s` (the whitespace characters relevant to class attribute values;
the full JS class also contains further Unicode spaces). -/
def jsSpace (c : Char) : Bool :=
  c == ' ' || c == '\t' || c == '\n' || c == '\r' ||
  c == Char.ofNat 11 || c == Char.ofNat 12 || c == Char.ofNat 160

/-- JS `\w` class: `[A-Za-z0-9_]`. -/
def wordChar (c : Char) : Bool :=
  (97 ≤ c.toNat && c.toNat ≤ 122) || (65 ≤ c.toNat && c.toNat ≤ 90) ||
  (48 ≤ c.toNat && c.toNat ≤ 57) || c == '_'

/-- JS `\d` class. -/
def digitCh (c : Char) : Bool := 48 ≤ c.toNat && c.toNat ≤ 57

/-- JS `[-_]` class. -/
def dashCh (c : Char) : Bool := c == '-' || c == '_'

/-- JS `[-_\s]` class. -/
def sepCh (c : Char) : Bool := dashCh c || jsSpace c

/-- JS `.` (any character but a line terminator). -/
def anyCh (c : Char) : Bool := !(c == '\n') && !(c == '\r')

/-- JS `String.prototype.trim` (whitespace per `jsSpace`). -/
def jsTrim (s : String) : String :=
  String.mk (((s.data.dropWhile jsSpace).reverse.dropWhile jsSpace).reverse)

/-- JS `String.prototype.slice(0, n)`. -/
def sliceTo (s : String) (n : Nat) : String := String.mk (s.data.take n)

/-- JS `String.prototype.toLowerCase` (ASCII range; the inputs considered
are ASCII, where this matches JS). -/
def lowerStr (s : String) : String := String.mk (s.data.map Char.toLower)

/-- Split a character list at every separator character.  Splitting at each
character rather than at runs (JS `split(/\s+/)`) differs only in empty
fragments, which the caller filters out. -/
def splitOnPred (p : Char → Bool) : List Char → List (List Char)
  | [] => [[]]
  | c :: rest =>
      let r := splitOnPred p rest
      if p c then [] :: r else (c :: r.headD []) :: r.tail

/-- Regex AST: empty string, character class, concatenation, alternation,
optional (`?`), starred class (`[..]*`), anchors `^` `$`, word boundary. -/
inductive RE where
  | eps
  | cls (p : Char → Bool)
  | seq (a b : RE)
  | alt (a b : RE)
  | opt (a : RE)
  | starCls (p : Char → Bool)
  | bos
  | eos
  | wb

/-- All ways a starred class can consume a prefix; each result is the
character preceding the rest together with the rest. -/
def starSuffixes (p : Char → Bool) : Option Char → List Char → List (Option Char × List Char)
  | prev, [] => [(prev, [])]
  | prev, c :: rest =>
      (prev, c :: rest) :: (if p c then starSuffixes p (some c) rest else [])

/-- All ways `r` can match a prefix of `s`, where `prev` is the character
immediately before `s` in the subject (`none` at the start). -/
def matchesFrom : RE → Option Char → List Char → List (Option Char × List Char)
  | .eps, prev, s => [(prev, s)]
  | .cls _, _, [] => []
  | .cls p, _, c :: rest => if p c then [(some c, rest)] else []
  | .seq a b, prev, s =>
      (matchesFrom a prev s).flatMap (fun pr => matchesFrom b pr.1 pr.2)
  | .alt a b, prev, s => matchesFrom a prev s ++ matchesFrom b prev s
  | .opt a, prev, s => (prev, s) :: matchesFrom a prev s
  | .starCls p, prev, s => starSuffixes p prev s
  | .bos, prev, s => if prev.isNone then [(prev, s)] else []
  | .eos, prev, [] => [(prev, [])]
  | .eos, _, _ :: _ => []
  | .wb, prev, s =>
      let pw := match prev with | none => false | some c => wordChar c
      let nw := match s with | [] => false | c :: _ => wordChar c
      if pw != nw then [(prev, s)] else []

/-- Does `r` match starting exactly at the position described by `(prev, s)`? -/
def matchHere (r : RE) (prev : Option Char) (s : List Char) : Bool :=
  !(matchesFrom r prev s).isEmpty

/-- Does `r` match at some position of `s` (at or after the current one)? -/
def testFrom (r : RE) (prev : Option Char) (s : List Char) : Bool :=
  matchHere r prev s ||
    (match s with
     | [] => false
     | c :: rest => testFrom r (some c) rest)

/-- Model of `RegExp.prototype.test`. -/
def RE.test (r : RE) (s : String) : Bool := testFrom r none s.data

/-- Concatenation of a list of regexes. -/
def seqList (l : List RE) : RE := l.foldr RE.seq RE.eps

/-- Case-insensitive single character. -/
def charCI (c : Char) : RE := .cls (fun x => x.toLower == c.toLower)

/-- Case-insensitive literal (a `/i` pattern fragment). -/
def litCI (s : String) : RE := seqList (s.data.map charCI)

/-- Case-sensitive single character. -/
def chrRE (c : Char) : RE := .cls (fun x => x == c)

/-- Case-sensitive literal. -/
def litCS (s : String) : RE := seqList (s.data.map chrRE)

/-- Three-way alternation. -/
def alt3 (a b c : RE) : RE := .alt a (.alt b c)

/-! ## Pattern tables of the analyzer -/

/-- STRUCTURAL_CLASS_PATTERNS: the ordered (regex, label) table. -/
def STRUCTURAL_CLASS_PATTERNS : List (RE × String) := [
  (alt3 (seqList [litCI "hero", .opt (.cls sepCh), litCI "section"])
        (seqList [litCI "hero", .opt (.cls sepCh), litCI "banner"])
        (.seq (litCI "hero") .eos), "Hero"),
  (litCI "hero", "Hero"),
  (seqList [litCI "card", .opt (.cls sepCh),
            alt3 (litCI "grid") (litCI "list") (litCI "container")], "Cards"),
  (litCI "card", "Card"),
  (seqList [litCI "feature", .opt (.cls sepCh),
            alt3 (litCI "grid") (litCI "list") (litCI "section")], "Features"),
  (litCI "feature", "Feature"),
  (seqList [litCI "service", .opt (.cls sepCh),
            alt3 (litCI "grid") (litCI "list") (litCI "section")], "Services"),
  (litCI "service", "Service"),
  (litCI "testimonial", "Testimonials"),
  (litCI "pricing", "Pricing"),
  (.alt (litCI "cta")
        (seqList [litCI "call", .opt (.cls dashCh), litCI "to",
                  .opt (.cls dashCh), litCI "action"]), "CTA"),
  (litCI "banner", "Banner"),
  (litCI "sidebar", "Sidebar"),
  (seqList [litCI "contact", .opt (.cls sepCh),
            .alt (litCI "form") (litCI "section")], "Contact"),
  (seqList [litCI "about", .opt (.cls sepCh),
            .alt (litCI "section") (litCI "us")], "About"),
  (litCI "team", "Team"),
  (litCI "faq", "FAQ"),
  (litCI "gallery", "Gallery"),
  (litCI "portfolio", "Portfolio"),
  (seqList [litCI "blog", .opt (.cls sepCh),
            .alt (litCI "post") (litCI "section")], "Blog"),
  (litCI "news", "News"),
  (.alt (litCI "stats") (litCI "statistics"), "Stats"),
  (litCI "benefits", "Benefits"),
  (alt3 (litCI "partners") (litCI "clients") (litCI "logos"), "Partners"),
  (litCI "newsletter", "Newsletter"),
  (litCI "social", "Social"),
  (seqList [litCI "map", .opt (.cls sepCh),
            .alt (litCI "section") (litCI "container")], "Map"),
  (litCI "location", "Location"),
  (alt3 (litCI "hours") (litCI "schedule") (litCI "opening"), "Hours")]

/-- GENERIC_CONTAINER_PATTERNS: anchored utility-class patterns. -/
def GENERIC_CONTAINER_PATTERNS : List RE := [
  seqList [.bos, litCI "container", .eos],
  seqList [.bos, litCI "wrapper", .eos],
  seqList [.bos, litCI "inner", .eos],
  seqList [.bos, litCI "outer", .eos],
  seqList [.bos, litCI "content", .eos],
  seqList [.bos, litCI "box", .eos],
  seqList [.bos, litCI "row", .eos],
  seqList [.bos, litCI "col", .opt (litCI "umn"), .opt (.cls dashCh),
           .starCls digitCh, .eos],
  seqList [.bos, litCI "grid", .eos],
  seqList [.bos, litCI "flex", .eos],
  seqList [.bos, litCI "layout", .eos],
  seqList [.bos, litCI "max", .opt (.cls dashCh), litCI "w"],
  seqList [.bos, litCI "mx", .opt (.cls dashCh), litCI "auto"],
  seqList [.bos, litCI "px", .opt (.cls dashCh), .cls digitCh],
  seqList [.bos, litCI "py", .opt (.cls dashCh), .cls digitCh],
  seqList [.bos, litCI "p", .opt (.cls dashCh), .cls digitCh],
  seqList [.bos, litCI "m", .opt (.cls dashCh), .cls digitCh]]

/-- The button-link class pattern of `isButtonElement`. -/
def BTN_CLASS_RE : RE := seqList [.wb, alt3 (litCI "btn") (litCI "button") (litCI "cta"), .wb]

/-- The icon-font class pattern of `isIconElement`. -/
def ICON_CLASS_RE : RE :=
  seqList [.wb, .alt (.alt (litCI "icon") (litCI "fa-"))
                     (.alt (litCI "bi-") (litCI "material-icons")), .wb]

/-- Label pattern of `getSemanticType` for the hero type. -/
def HERO_TYPE_RE : RE := .alt (litCS "hero") (litCS "banner")

/-- Label pattern of `getSemanticType` for the card type. -/
def CARD_TYPE_RE : RE :=
  .alt (alt3 (litCS "card") (litCS "feature") (litCS "service"))
       (alt3 (litCS "testimonial") (litCS "team") (litCS "benefit"))

/-- Label pattern of `getSemanticType` for the cta type. -/
def CTA_TYPE_RE : RE :=
  .alt (litCS "cta")
       (seqList [litCS "call", .opt (.cls anyCh), litCS "to",
                 .opt (.cls anyCh), litCS "action"])

/-- Label pattern of `getSemanticType` for the navigation type. -/
def NAV_TYPE_RE : RE := .alt (litCS "nav") (litCS "menu")

/-! ## Data model -/

/-- Element namespace kind, modelling `instanceof HTMLElement` /
`instanceof SVGElement`. -/
inductive EKind where
  | html
  | svg
  | other
deriving DecidableEq, Repr

/-- A bounding box, `{x, y, width, height}`. -/
structure BoundingBox where
  x : ℚ
  y : ℚ
  width : ℚ
  height : ℚ
deriving DecidableEq, Repr

/-- The host data of a single element as read by the analyzer. -/
structure ElemData where
  kind : EKind
  tagName : String
  idAttr : String
  className : String
  role : Option String
  typeAttr : Option String
  textContent : String
  display : String
  visibility : String
  opacity : ℚ
  flexDirection : String
  rect : BoundingBox
  docPos : Nat
deriving DecidableEq, Repr

/-- An element of the captured DOM snapshot: host data plus ordered children. -/
inductive Elem where
  | mk (data : ElemData) (children : List Elem)

def Elem.data : Elem → ElemData
  | .mk d _ => d

def Elem.children : Elem → List Elem
  | .mk _ cs => cs

def Elem.kind (e : Elem) : EKind := e.data.kind
def Elem.tagName (e : Elem) : String := e.data.tagName
def Elem.idAttr (e : Elem) : String := e.data.idAttr
def Elem.className (e : Elem) : String := e.data.className
def Elem.role (e : Elem) : Option String := e.data.role
def Elem.typeAttr (e : Elem) : Option String := e.data.typeAttr
def Elem.textContent (e : Elem) : String := e.data.textContent
def Elem.display (e : Elem) : String := e.data.display
def Elem.visibility (e : Elem) : String := e.data.visibility
def Elem.opacity (e : Elem) : ℚ := e.data.opacity
def Elem.flexDirection (e : Elem) : String := e.data.flexDirection
def Elem.rect (e : Elem) : BoundingBox := e.data.rect
def Elem.docPos (e : Elem) : Nat := e.data.docPos

/-- Window / document state read by the analyzer. -/
structure Env where
  scrollX : ℚ
  scrollY : ℚ
  innerWidth : ℚ
  innerHeight : ℚ
  bodyScrollHeight : ℚ
  docElScrollHeight : ℚ
  href : String
  capturedAt : String

/-- AnalyzerConfig. -/
structure AnalyzerConfig where
  minArea : ℚ
  maxDepth : Nat
  viewportAreaThreshold : ℚ

/-- Partial<AnalyzerConfig>, as accepted by `analyzeDom`. -/
structure PartialConfig where
  minArea : Option ℚ := none
  maxDepth : Option Nat := none
  viewportAreaThreshold : Option ℚ := none

/-- Object-spread merge of a partial config over a base config. -/
def mergeConfig (base : AnalyzerConfig) (p : PartialConfig) : AnalyzerConfig :=
  { minArea := p.minArea.getD base.minArea
    maxDepth := p.maxDepth.getD base.maxDepth
    viewportAreaThreshold := p.viewportAreaThreshold.getD base.viewportAreaThreshold }

/-- DEFAULT_CONFIG. -/
def DEFAULT_CONFIG : AnalyzerConfig :=
  { minArea := 10000, maxDepth := 3, viewportAreaThreshold := 0.05 }

/-- GRID_ITEM_MIN_AREA. -/
def GRID_ITEM_MIN_AREA : ℚ := 2500

/-- SemanticType. -/
inductive SemanticType where
  | header
  | navigation
  | hero
  | content
  | card
  | cta
  | footer
deriving DecidableEq, Repr

/-- ContentType. -/
inductive ContentType where
  | image
  | button
  | text
  | icon
deriving DecidableEq, Repr

/-- ContentHint. -/
structure ContentHint where
  type : ContentType
  bbox : BoundingBox
  label : Option String
deriving DecidableEq, Repr

/-- The non-recursive data of a WireframeNode.  `srcPos` is a ghost field
recording the source element's `docPos`; no computation depends on it. -/
structure NodeData where
  tagName : String
  label : String
  bbox : BoundingBox
  depth : Nat
  isLandmark : Bool
  semanticType : SemanticType
  contentHints : Option (List ContentHint)
  srcPos : Nat
deriving DecidableEq, Repr

/-- WireframeNode: node data plus ordered children. -/
inductive WireframeNode where
  | mk (data : NodeData) (children : List WireframeNode)

def WireframeNode.data : WireframeNode → NodeData
  | .mk d _ => d

def WireframeNode.children : WireframeNode → List WireframeNode
  | .mk _ cs => cs

def WireframeNode.tagName (n : WireframeNode) : String := n.data.tagName
def WireframeNode.label (n : WireframeNode) : String := n.data.label
def WireframeNode.bbox (n : WireframeNode) : BoundingBox := n.data.bbox
def WireframeNode.depth (n : WireframeNode) : Nat := n.data.depth
def WireframeNode.isLandmark (n : WireframeNode) : Bool := n.data.isLandmark
def WireframeNode.semanticType (n : WireframeNode) : SemanticType := n.data.semanticType
def WireframeNode.contentHints (n : WireframeNode) : Option (List ContentHint) :=
  n.data.contentHints
def WireframeNode.srcPos (n : WireframeNode) : Nat := n.data.srcPos

/-- WireframeModel. -/
structure WireframeModel where
  nodes : List WireframeNode
  viewportWidth : ℚ
  viewportHeight : ℚ
  fullPageHeight : ℚ
  pageUrl : String
  capturedAt : String

/-! ## Tag and role sets -/

/-- LANDMARK_TAGS. -/
def LANDMARK_TAGS : List String :=
  ["header", "nav", "main", "section", "article", "aside", "footer"]

/-- LANDMARK_ROLES. -/
def LANDMARK_ROLES : List String :=
  ["banner", "navigation", "main", "contentinfo", "complementary", "region",
   "search", "form"]

/-- SKIP_TAGS. -/
def SKIP_TAGS : List String :=
  ["h1", "h2", "h3", "h4", "h5", "h6", "p", "blockquote", "pre",
   "span", "a", "em", "strong", "b", "i", "label", "small", "sub", "sup",
   "abbr", "code", "kbd", "mark", "q", "s", "u", "var", "time", "br", "wbr",
   "script", "style", "link", "meta", "noscript", "template",
   "img", "svg", "picture", "video", "audio", "canvas", "iframe",
   "input", "textarea", "select", "button", "form",
   "ul", "ol", "li", "dl", "dt", "dd",
   "table", "thead", "tbody", "tr", "td", "th"]

/-! ## Geometry and visibility helpers -/

/-- isElementVisible. -/
def isElementVisible (el : Elem) : Bool :=
  if el.display = "none" then false
  else if el.visibility = "hidden" then false
  else if el.opacity = 0 then false
  else if el.rect.width = 0 ∨ el.rect.height = 0 then false
  else true

/-- getAbsoluteBoundingBox: client rect plus scroll offsets. -/
def getAbsoluteBoundingBox (env : Env) (el : Elem) : BoundingBox :=
  { x := el.rect.x + env.scrollX
    y := el.rect.y + env.scrollY
    width := el.rect.width
    height := el.rect.height }

/-- getElementBoundingBox (same computation, for any `Element`). -/
def getElementBoundingBox (env : Env) (el : Elem) : BoundingBox :=
  getAbsoluteBoundingBox env el

/-- isLandmark. -/
def isLandmark (el : Elem) : Bool :=
  LANDMARK_TAGS.contains el.tagName ||
    (match el.role with
     | some r => LANDMARK_ROLES.contains r
     | none => false)

/-- The element's `className` when it is a string (HTML elements); `none`
models the `typeof className !== "string"` guard for SVG elements. -/
def classStr (el : Elem) : Option String :=
  if el.kind = EKind.html then some el.className else none

/-- getClassLabel. -/
def getClassLabel (el : Elem) : Option String :=
  match classStr el with
  | none => none
  | some cn =>
      if cn = "" then none
      else STRUCTURAL_CLASS_PATTERNS.findSome?
             (fun pr => if pr.1.test cn then some pr.2 else none)

/-- hasOnlyGenericClasses. -/
def hasOnlyGenericClasses (el : Elem) : Bool :=
  match classStr el with
  | none => true
  | some cn =>
      if cn = "" then true
      else
        let classes := ((splitOnPred jsSpace cn.data).map String.mk).filter
          (fun c => c.length > 0)
        if classes.length = 0 then true
        else classes.all (fun cls => GENERIC_CONTAINER_PATTERNS.any (fun p => p.test cls))

/-- isGridOrFlexContainer. -/
def isGridOrFlexContainer (el : Elem) : Bool :=
  let d := el.display
  if d = "grid" ∨ d = "inline-grid" then true
  else if d = "flex" ∨ d = "inline-flex" then
    decide (el.flexDirection = "row" ∨ el.flexDirection = "row-reverse")
  else false

/-- getVisibleChildren. -/
def getVisibleChildren (el : Elem) : List Elem :=
  el.children.filter
    (fun c => c.kind == EKind.html && !SKIP_TAGS.contains c.tagName && isElementVisible c)

/-- The width/height/area record of `areChildrenSimilarlySized`. -/
structure SizeInfo where
  width : ℚ
  height : ℚ
  area : ℚ

/-- areChildrenSimilarlySized. -/
def areChildrenSimilarlySized (children : List Elem) (tolerance : ℚ := 0.3) : Bool :=
  if children.length < 2 then false
  else
    let sizes := children.map (fun c =>
      SizeInfo.mk c.rect.width c.rect.height (c.rect.width * c.rect.height))
    let significantSizes := sizes.filter (fun s => decide (s.area > 1000))
    if significantSizes.length < 2 then false
    else
      let avgWidth := (significantSizes.map SizeInfo.width).sum / significantSizes.length
      let avgHeight := (significantSizes.map SizeInfo.height).sum / significantSizes.length
      significantSizes.all (fun s =>
        decide (|s.width - avgWidth| / avgWidth ≤ tolerance) &&
        decide (|s.height - avgHeight| / avgHeight ≤ tolerance))

/-- detectGridItems. -/
def detectGridItems (el : Elem) : Option (List Elem) :=
  if !isGridOrFlexContainer el then none
  else
    let children := getVisibleChildren el
    if children.length < 2 then none
    else
      let nonLandmarkChildren := children.filter (fun c => !isLandmark c)
      if nonLandmarkChildren.length < 2 then none
      else if !areChildrenSimilarlySized nonLandmarkChildren then none
      else
        let validChildren := nonLandmarkChildren.filter
          (fun c => decide (c.rect.width * c.rect.height ≥ GRID_ITEM_MIN_AREA))
        if validChildren.length ≥ 2 then some validChildren else none

/-- isSignificant. -/
def isSignificant (env : Env) (el : Elem) (viewportArea : ℚ)
    (config : AnalyzerConfig) : Bool :=
  let tagName := el.tagName
  if SKIP_TAGS.contains tagName then false
  else
    let bbox := getAbsoluteBoundingBox env el
    let area := bbox.width * bbox.height
    if area < config.minArea then false
    else if isLandmark el then true
    else if (getClassLabel el).isSome then true
    else if tagName = "div" ∧ hasOnlyGenericClasses el then false
    else if tagName = "div" then decide (area > viewportArea * 0.1)
    else false

/-! ## Document-order traversal (querySelector / querySelectorAll) -/

theorem Elem.sizeOf_children_lt (e : Elem) : sizeOf e.children < sizeOf e := by
  cases e with
  | mk d cs => simp [Elem.children]

mutual

/-- Pre-order listing of an element's subtree, the element itself first. -/
def preOrder (e : Elem) : List Elem :=
  e :: preOrderList e.children
termination_by sizeOf e
decreasing_by exact e.sizeOf_children_lt

/-- Concatenated pre-orders of a list of elements. -/
def preOrderList (l : List Elem) : List Elem :=
  match l with
  | [] => []
  | c :: cs => preOrder c ++ preOrderList cs
termination_by sizeOf l
decreasing_by
  all_goals (simp; try omega)

end

theorem preOrder_mk (d : ElemData) (cs : List Elem) :
    preOrder (Elem.mk d cs) = Elem.mk d cs :: preOrderList cs := by
  rw [preOrder]; rfl

/-- The descendants of an element in document order; this is the match list
of `el.querySelectorAll("*")` (the element itself excluded). -/
def descendants (el : Elem) : List Elem := preOrderList el.children

/-- querySelectorAll with a tag-level predicate: matching descendants in
document order. -/
def queryAll (el : Elem) (p : Elem → Bool) : List Elem :=
  (descendants el).filter p

/-- querySelector with a tag-level predicate: first matching descendant. -/
def queryFirst (el : Elem) (p : Elem → Bool) : Option Elem :=
  (descendants el).find? p

/-! ## Label inference -/

/-- inferLabelFromContent. -/
def inferLabelFromContent (el : Elem) : Option String :=
  match queryFirst el (fun d => d.tagName == "h1" || d.tagName == "h2" || d.tagName == "h3") with
  | none => none
  | some heading =>
      if heading.textContent = "" then none
      else
        let text := jsTrim heading.textContent
        if 0 < text.length ∧ text.length < 50 then
          let label := sliceTo text 25
          some (if label.length < text.length then label ++ "..." else label)
        else none

/-- inferGridItemLabel. -/
def inferGridItemLabel (el : Elem) : String :=
  match getClassLabel el with
  | some classLabel => classLabel
  | none =>
      match inferLabelFromContent el with
      | some contentLabel => contentLabel
      | none => "Card"

/-- Replace `-` and `_` by spaces (the first `replace` of the id cleanup). -/
def replaceDashes (s : String) : String :=
  String.mk (s.data.map (fun c => if dashCh c then ' ' else c))

/-- Insert a space at each lowercase-uppercase boundary (the global
`([a-z])([A-Z])` replacement; a replaced pair is consumed, so matches do
not overlap). -/
def camelSplit : List Char → List Char
  | c1 :: c2 :: rest =>
      if (97 ≤ c1.toNat && c1.toNat ≤ 122) && (65 ≤ c2.toNat && c2.toNat ≤ 90) then
        c1 :: ' ' :: c2 :: camelSplit rest
      else c1 :: camelSplit (c2 :: rest)
  | other => other

/-- Uppercase the first character, keep the rest (`charAt(0).toUpperCase() +
slice(1)`). -/
def capitalizeFirst (s : String) : String :=
  match s.data with
  | [] => ""
  | c :: rest => String.mk (c.toUpper :: rest)

/-- The id humanization of `generateLabel` step 2. -/
def humanizeId (id : String) : String :=
  let cleanId := lowerStr (String.mk (camelSplit (replaceDashes id).data))
  capitalizeFirst cleanId

/-- The `roleLabels` table of `generateLabel`. -/
def roleLabelLookup (r : String) : Option String :=
  match r with
  | "banner" => some "Header"
  | "navigation" => some "Navigation"
  | "main" => some "Main Content"
  | "contentinfo" => some "Footer"
  | "complementary" => some "Sidebar"
  | "search" => some "Search"
  | "region" => some "Region"
  | _ => none

/-- The `tagLabels` table of `generateLabel`. -/
def tagLabelLookup (t : String) : Option String :=
  match t with
  | "header" => some "Header"
  | "nav" => some "Navigation"
  | "main" => some "Main Content"
  | "section" => some "Section"
  | "article" => some "Article"
  | "aside" => some "Sidebar"
  | "footer" => some "Footer"
  | _ => none

/-- The id-based step of the label cascade: pattern table against the id,
else humanize the id.  (Factored out to state the cascade property.) -/
def idStepLabel (el : Elem) : String :=
  match STRUCTURAL_CLASS_PATTERNS.findSome?
          (fun pr => if pr.1.test el.idAttr then some pr.2 else none) with
  | some l => l
  | none => humanizeId el.idAttr

/-- The steps of the label cascade after the id step: ARIA role table,
content heading, tag table, final fallback.  (Factored out to state the
cascade property.) -/
def postIdLabel (el : Elem) : String :=
  let tagName := el.tagName
  let roleStep : Option String :=
    match el.role with
    | some r => roleLabelLookup r
    | none => none
  match roleStep with
  | some l => l
  | none =>
      let contentStep : Option String :=
        if tagName = "section" ∨ tagName = "article" ∨ tagName = "div" then
          inferLabelFromContent el
        else none
      match contentStep with
      | some l => l
      | none =>
          match tagLabelLookup tagName with
          | some l => l
          | none => if tagName = "div" then "Block" else capitalizeFirst tagName

/-- generateLabel: the full ordered cascade. -/
def generateLabel (el : Elem) : String :=
  match getClassLabel el with
  | some classLabel => classLabel
  | none =>
      let id := el.idAttr
      if id ≠ "" ∧ 2 < id.length ∧ id.length < 30 then idStepLabel el
      else postIdLabel el

/-- getSemanticType. -/
def getSemanticType (el : Elem) (label : String) : SemanticType :=
  let tagName := el.tagName
  let role := el.role
  if tagName = "header" ∨ role = some "banner" then .header
  else if tagName = "nav" ∨ role = some "navigation" then .navigation
  else if tagName = "footer" ∨ role = some "contentinfo" then .footer
  else
    let lowerLabel := lowerStr label
    if HERO_TYPE_RE.test lowerLabel then .hero
    else if CARD_TYPE_RE.test lowerLabel then .card
    else if CTA_TYPE_RE.test lowerLabel then .cta
    else if NAV_TYPE_RE.test lowerLabel then .navigation
    else .content

/-! ## Content hint extraction -/

/-- Is an element a button or button-like link (isButtonElement)? -/
def isButtonElement (el : Elem) : Bool :=
  let tagName := el.tagName
  if tagName = "button" then true
  else if tagName = "input" then
    decide (el.typeAttr = some "submit" ∨ el.typeAttr = some "button")
  else if tagName = "a" then
    if el.role = some "button" then true
    else
      match classStr el with
      | some cn => BTN_CLASS_RE.test cn
      | none => false
  else false

/-- Is an element an icon (small SVG or icon font) (isIconElement)? -/
def isIconElement (el : Elem) : Bool :=
  let tagName := el.tagName
  if tagName = "svg" then decide (el.rect.width * el.rect.height ≤ 400)
  else if tagName = "i" ∨ tagName = "span" then
    match classStr el with
    | some cn => ICON_CLASS_RE.test cn
    | none => false
  else false

/-- CONTENT_MIN_SIZES: (width, height) minimum per hint type. -/
def CONTENT_MIN_SIZES : ContentType → ℚ × ℚ
  | .image => (30, 30)
  | .button => (50, 20)
  | .text => (50, 10)
  | .icon => (12, 12)

/-- CONTENT_MAX_COUNTS: per-type hint cap. -/
def CONTENT_MAX_COUNTS : ContentType → Nat
  | .image => 5
  | .button => 3
  | .text => 1
  | .icon => 6

/-- The mutable state of `detectContentHintsUnsafe`: the accumulated hints
and the per-type counters. -/
structure HintState where
  hints : List ContentHint
  imageCount : Nat
  buttonCount : Nat
  textCount : Nat
  iconCount : Nat
deriving Repr

/-- Read a per-type counter. -/
def HintState.count (st : HintState) : ContentType → Nat
  | .image => st.imageCount
  | .button => st.buttonCount
  | .text => st.textCount
  | .icon => st.iconCount

/-- Bump a per-type counter. -/
def HintState.inc (st : HintState) : ContentType → HintState
  | .image => { st with imageCount := st.imageCount + 1 }
  | .button => { st with buttonCount := st.buttonCount + 1 }
  | .text => { st with textCount := st.textCount + 1 }
  | .icon => { st with iconCount := st.iconCount + 1 }

/-- addHint: append the hint if it meets the per-type minimum size and the
per-type cap has not been reached. -/
def addHint (st : HintState) (type : ContentType) (bbox : BoundingBox)
    (label : Option String := none) : HintState :=
  let minSize := CONTENT_MIN_SIZES type
  let maxCount := CONTENT_MAX_COUNTS type
  if bbox.width < minSize.1 ∨ bbox.height < minSize.2 then st
  else if st.count type ≥ maxCount then st
  else { (st.inc type) with hints := st.hints ++ [ContentHint.mk type bbox label] }

/-- The image step: `querySelectorAll("img, picture, figure")`. -/
def imageStep (env : Env) (el : Elem) (st : HintState) : HintState :=
  (queryAll el (fun d =>
      d.tagName == "img" || d.tagName == "picture" || d.tagName == "figure")).foldl
    (fun st img =>
      if img.kind = EKind.html ∧ isElementVisible img = true then
        addHint st .image (getAbsoluteBoundingBox env img)
      else st) st

/-- The large-SVG step: large vector graphics are images. -/
def largeSvgStep (env : Env) (el : Elem) (st : HintState) : HintState :=
  (queryAll el (fun d => d.tagName == "svg")).foldl
    (fun st svg =>
      if svg.kind = EKind.svg ∧ ¬(svg.rect.width = 0 ∨ svg.rect.height = 0) ∧
          svg.rect.width * svg.rect.height > 400 then
        addHint st .image (getElementBoundingBox env svg)
      else st) st

/-- The button step: `querySelectorAll("button, a, input[type='submit'],
input[type='button']")`. -/
def buttonStep (env : Env) (el : Elem) (st : HintState) : HintState :=
  (queryAll el (fun d =>
      d.tagName == "button" || d.tagName == "a" ||
      (d.tagName == "input" &&
        (d.typeAttr == some "submit" || d.typeAttr == some "button")))).foldl
    (fun st btn =>
      if btn.kind = EKind.html ∧ isButtonElement btn = true ∧
          isElementVisible btn = true then
        let lbl := sliceTo (jsTrim btn.textContent) 20
        addHint st .button (getAbsoluteBoundingBox env btn)
          (if lbl = "" then none else some lbl)
      else st) st

/-- The small-SVG icon step. -/
def svgIconStep (env : Env) (el : Elem) (st : HintState) : HintState :=
  (queryAll el (fun d => d.tagName == "svg")).foldl
    (fun st svg =>
      if svg.kind = EKind.svg ∧ isIconElement svg = true then
        addHint st .icon (getElementBoundingBox env svg)
      else st) st

/-- The icon-font step: `querySelectorAll("i, span")`. -/
def iconFontStep (env : Env) (el : Elem) (st : HintState) : HintState :=
  (queryAll el (fun d => d.tagName == "i" || d.tagName == "span")).foldl
    (fun st icon =>
      if icon.kind = EKind.html ∧ isIconElement icon = true ∧
          isElementVisible icon = true then
        addHint st .icon (getAbsoluteBoundingBox env icon)
      else st) st

/-- The text step: collapse all visible, large-enough paragraph/heading
descendants into one union bounding box.  The `Infinity`-seeded min/max
accumulation of the source is modelled by an `Option` accumulator, which is
`some` exactly when `hasVisibleText && minX !== Infinity`. -/
def textStep (env : Env) (el : Elem) (st : HintState) : HintState :=
  let textElements := queryAll el (fun d =>
    ["p", "h1", "h2", "h3", "h4", "h5", "h6"].contains d.tagName)
  if textElements.length > 0 ∧ st.count .text < CONTENT_MAX_COUNTS .text then
    let acc := textElements.foldl
      (fun (acc : Option (ℚ × ℚ × ℚ × ℚ)) t =>
        if t.kind = EKind.html ∧ isElementVisible t = true ∧
            ¬(t.rect.width < 20 ∨ t.rect.height < 10) then
          let b := getAbsoluteBoundingBox env t
          match acc with
          | none => some (b.x, b.y, b.x + b.width, b.y + b.height)
          | some (mnx, mny, mxx, mxy) =>
              some (min mnx b.x, min mny b.y,
                    max mxx (b.x + b.width), max mxy (b.y + b.height))
        else acc) none
    match acc with
    | some (mnx, mny, mxx, mxy) =>
        addHint st .text (BoundingBox.mk mnx mny (mxx - mnx) (mxy - mny))
    | none => st
  else st

/-- detectContentHintsUnsafe: the six extraction steps in source order. -/
def detectContentHintsUnsafe (env : Env) (el : Elem) : List ContentHint :=
  (textStep env el
    (iconFontStep env el
      (svgIconStep env el
        (buttonStep env el
          (largeSvgStep env el
            (imageStep env el (HintState.mk [] 0 0 0 0))))))).hints

/-- The catch of `detectContentHints`: an `ok` result passes through, any
raised error is downgraded to the empty hint list. -/
def catchHints (r : Except String (List ContentHint)) : List ContentHint :=
  match r with
  | .ok hints => hints
  | .error _ => []

/-- detectContentHints: the defended wrapper around the unsafe extractor.
In this embedding the host reads are total, so the wrapped computation is
the `ok` injection of the unsafe result; `catchHints` models the catch. -/
def detectContentHints (env : Env) (el : Elem) : List ContentHint :=
  catchHints (Except.ok (detectContentHintsUnsafe env el))

/-! ## Tree reduction -/

/-- bboxesSimilar: the child takes strictly more than 85 percent of the
parent area. -/
def bboxesSimilar (a b : BoundingBox) : Bool :=
  decide (b.width * b.height > a.width * a.height * 0.85)

/-- Materialize the WireframeNode for an element (the final step of
`buildNodeTree`; the node-id assignment is omitted, see the header). -/
def materializeNode (env : Env) (el : Elem) (depth : Nat) (bbox : BoundingBox)
    (isGridItem : Bool) (childNodes : List WireframeNode) : WireframeNode :=
  let label := if isGridItem then inferGridItemLabel el else generateLabel el
  let contentHints := detectContentHints env el
  WireframeNode.mk
    { tagName := el.tagName
      label := label
      bbox := bbox
      depth := depth
      isLandmark := isLandmark el
      semanticType := if isGridItem then .card else getSemanticType el label
      contentHints := if contentHints.length > 0 then some contentHints else none
      srcPos := el.docPos }
    childNodes

theorem sizeOf_le_of_sublist {l1 l2 : List Elem} (h : List.Sublist l1 l2) :
    sizeOf l1 ≤ sizeOf l2 := by
  induction h with
  | slnil => omega
  | cons a _ ih => simp; omega
  | cons₂ a _ ih => simp; omega

theorem detectGridItems_sublist {el : Elem} {items : List Elem}
    (h : detectGridItems el = some items) : List.Sublist items el.children := by
  rw [detectGridItems] at h
  by_cases h1 : (!isGridOrFlexContainer el) = true
  · simp [h1] at h
  · simp only [h1, if_false, Bool.false_eq_true] at h
    by_cases h2 : (getVisibleChildren el).length < 2
    · simp [h2] at h
    · simp only [h2, if_false] at h
      by_cases h3 : ((getVisibleChildren el).filter (fun c => !isLandmark c)).length < 2
      · simp [h3] at h
      · simp only [h3, if_false] at h
        by_cases h4 : (!areChildrenSimilarlySized
            ((getVisibleChildren el).filter (fun c => !isLandmark c))) = true
        · simp [h4] at h
        · simp only [h4, if_false, Bool.false_eq_true] at h
          by_cases h5 : (((getVisibleChildren el).filter (fun c => !isLandmark c)).filter
              (fun c => decide (c.rect.width * c.rect.height ≥ GRID_ITEM_MIN_AREA))).length ≥ 2
          · simp only [h5, if_true] at h
            obtain rfl : _ = items := Option.some.injEq _ _ ▸ h
            exact ((List.filter_sublist _).trans (List.filter_sublist _)).trans
              (List.filter_sublist _)
          · rw [if_neg h5] at h
            exact absurd h (by simp)

theorem sizeOf_lt_of_detectGridItems {el : Elem} {items : List Elem}
    (h : detectGridItems el = some items) : sizeOf items < sizeOf el :=
  Nat.lt_of_le_of_lt (sizeOf_le_of_sublist (detectGridItems_sublist h))
    el.sizeOf_children_lt

mutual

/-- buildNodeTree: recursively build wireframe nodes from DOM elements.
In the grid branch `significant` is necessarily `true` and the grid result
non-null, so the source's insignificant-promotion and wrapper-collapse
checks (both guarded to exclude that branch) are unreachable there and the
node is materialized directly. -/
def buildNodeTree (env : Env) (el : Elem) (depth : Nat) (viewportArea : ℚ)
    (config : AnalyzerConfig) (isGridItem : Bool) : Option WireframeNode :=
  if depth > config.maxDepth ∧ isGridItem = false then none
  else if isElementVisible el = false then none
  else
    let bbox := getAbsoluteBoundingBox env el
    let significant := isGridItem || isSignificant env el viewportArea config
    match hgrid : (if significant = true ∧ isGridItem = false then detectGridItems el else none) with
    | some items =>
        let childNodes :=
          buildGridList env items (depth + 1) viewportArea config ++
            buildLandmarkList env el.children (depth + 1) viewportArea config
        some (materializeNode env el depth bbox isGridItem childNodes)
    | none =>
        let childNodes :=
          if isGridItem then []
          else buildChildList env el.children
                 (if significant then depth + 1 else depth) viewportArea config
        if significant = false then
          (if childNodes.length = 1 then childNodes.head? else none)
        else
          let collapseChild : Option WireframeNode :=
            if childNodes.length = 1 then
              childNodes.head?.bind (fun child =>
                if bboxesSimilar bbox child.bbox then
                  if isLandmark el = false ∧ child.isLandmark = true then some child
                  else if (generateLabel el = "Block" ∨ generateLabel el = "Section") ∧
                      child.label ≠ "Block" ∧ child.label ≠ "Section" then some child
                  else none
                else none)
            else none
          some (collapseChild.getD (materializeNode env el depth bbox isGridItem childNodes))
termination_by sizeOf el
decreasing_by
  · split at hgrid
    · exact sizeOf_lt_of_detectGridItems hgrid
    · exact absurd hgrid (by simp)
  · exact el.sizeOf_children_lt
  · exact el.sizeOf_children_lt

/-- The normal child-processing loop of `buildNodeTree` (HTML children
only, null results dropped, document order kept). -/
def buildChildList (env : Env) (l : List Elem) (depth : Nat) (viewportArea : ℚ)
    (config : AnalyzerConfig) : List WireframeNode :=
  match l with
  | [] => []
  | c :: cs =>
      let rest := buildChildList env cs depth viewportArea config
      if c.kind == EKind.html then
        match buildNodeTree env c depth viewportArea config false with
        | some node => node :: rest
        | none => rest
      else rest
termination_by sizeOf l
decreasing_by
  all_goals (simp; try omega)

/-- The grid-item loop of `buildNodeTree`. -/
def buildGridList (env : Env) (l : List Elem) (depth : Nat) (viewportArea : ℚ)
    (config : AnalyzerConfig) : List WireframeNode :=
  match l with
  | [] => []
  | c :: cs =>
      let rest := buildGridList env cs depth viewportArea config
      match buildNodeTree env c depth viewportArea config true with
      | some node => node :: rest
      | none => rest
termination_by sizeOf l
decreasing_by
  all_goals (simp; try omega)

/-- The landmark-children loop of the grid branch of `buildNodeTree`. -/
def buildLandmarkList (env : Env) (l : List Elem) (depth : Nat) (viewportArea : ℚ)
    (config : AnalyzerConfig) : List WireframeNode :=
  match l with
  | [] => []
  | c :: cs =>
      let rest := buildLandmarkList env cs depth viewportArea config
      if c.kind == EKind.html && isLandmark c then
        match buildNodeTree env c depth viewportArea config false with
        | some node => node :: rest
        | none => rest
      else rest
termination_by sizeOf l
decreasing_by
  all_goals (simp; try omega)

end

/-- analyzeDom: analyze the captured DOM under `body` and build a
WireframeModel.  The source's `root instanceof Document ? root.body : root`
is modelled by taking the body element directly; the node-id counter reset
concerns only the omitted id field. -/
def analyzeDom (env : Env) (body : Elem) (config : PartialConfig := {}) :
    WireframeModel :=
  let mergedConfig := mergeConfig DEFAULT_CONFIG config
  let viewportWidth := env.innerWidth
  let viewportHeight := env.innerHeight
  let viewportArea := viewportWidth * viewportHeight
  let fullPageHeight := max env.bodyScrollHeight env.docElScrollHeight
  let nodes := buildChildList env body.children 0 viewportArea mergedConfig
  { nodes := nodes
    viewportWidth := viewportWidth
    viewportHeight := viewportHeight
    fullPageHeight := fullPageHeight
    pageUrl := env.href
    capturedAt := env.capturedAt }

/-! ## Node-tree predicates used to state the verified properties -/

theorem WireframeNode.sizeOf_kids_lt (n : WireframeNode) :
    sizeOf n.children < sizeOf n := by
  cases n with
  | mk d cs => simp [WireframeNode.children]

mutual

/-- Does `p` hold of every node of the tree rooted at `n`? -/
def nodeAll (p : WireframeNode → Bool) (n : WireframeNode) : Bool :=
  p n && nodeAllList p n.children
termination_by sizeOf n
decreasing_by exact n.sizeOf_kids_lt

/-- Does `p` hold of every node of every tree in the list? -/
def nodeAllList (p : WireframeNode → Bool) : List WireframeNode → Bool
  | [] => true
  | n :: ns => nodeAll p n && nodeAllList p ns
termination_by l => sizeOf l
decreasing_by
  all_goals (simp; try omega)

end

/-- Per-node depth property: every direct child sits at least one level
below its parent. -/
def depthStepOK (n : WireframeNode) : Bool :=
  n.children.all (fun c => n.depth + 1 ≤ c.depth)

/-- Per-node ordering property: the direct children's ghost source
positions are strictly increasing. -/
def childrenSorted (n : WireframeNode) : Bool :=
  decide (List.Pairwise (fun a b => a < b) (n.children.map WireframeNode.srcPos))

/-- Per-node content-hint property: the `contentHints` field is absent or a
non-empty list. -/
def hintsNonEmptyOK (n : WireframeNode) : Bool :=
  match n.contentHints with
  | none => true
  | some hs => !hs.isEmpty

/-- Ghost document positions of an element's subtree, in document order. -/
def spos (e : Elem) : List Nat := (preOrder e).map Elem.docPos

/-- Ghost document positions of a forest, in document order. -/
def sposList (l : List Elem) : List Nat := (preOrderList l).map Elem.docPos

/-- Number of hints of one type in a hint list. -/
def countType (t : ContentType) (hs : List ContentHint) : Nat :=
  (hs.filter (fun h => h.type == t)).length

/-- Does a hint meet the per-type minimum size of `addHint`? -/
def hintMeetsMin (h : ContentHint) : Bool :=
  decide ((CONTENT_MIN_SIZES h.type).1 ≤ h.bbox.width ∧
          (CONTENT_MIN_SIZES h.type).2 ≤ h.bbox.height)

/-- The invariant maintained by the hint-extraction state: counters agree
with the accumulated hints, no cap is exceeded, and every hint meets its
minimum size. -/
def HintStateOK (st : HintState) : Prop :=
  (∀ t, st.count t = countType t st.hints) ∧
  (∀ t, countType t st.hints ≤ CONTENT_MAX_COUNTS t) ∧
  (∀ h ∈ st.hints, hintMeetsMin h = true)

/-! ## Concrete scenario inputs -/

/-- A window environment with a 1280 by 800 viewport and no scrolling. -/
def envStd : Env := {
  scrollX := 0, scrollY := 0, innerWidth := 1280, innerHeight := 800,
  bodyScrollHeight := 800, docElScrollHeight := 800,
  href := "https://example.test/", capturedAt := "2026-01-01T00:00:00.000Z" }

/-- Default style fields of a visible block element. -/
def blockData (tag id cls : String) (role : Option String) (rect : BoundingBox)
    (pos : Nat) : ElemData := {
  kind := .html, tagName := tag, idAttr := id, className := cls,
  role := role, typeAttr := none, textContent := "",
  display := "block", visibility := "visible", opacity := 1,
  flexDirection := "row", rect := rect, docPos := pos }

/-- C9 scenario: the button-like anchor. -/
def aC9 : Elem := .mk {
  kind := .html, tagName := "a", idAttr := "", className := "btn",
  role := none, typeAttr := none, textContent := "Contact",
  display := "inline", visibility := "visible", opacity := 1,
  flexDirection := "row", rect := ⟨1100, 20, 120, 40⟩, docPos := 3 } []

/-- C9 scenario: the navigation element. -/
def navC9 : Elem := .mk (blockData "nav" "" "" (some "navigation") ⟨0, 0, 1280, 80⟩ 2) [aC9]

/-- C9 scenario: the header element. -/
def headerC9 : Elem := .mk (blockData "header" "header" "" none ⟨0, 0, 1280, 80⟩ 1) [navC9]

/-- C9 scenario: the body. -/
def bodyC9 : Elem := .mk (blockData "body" "" "" none ⟨0, 0, 1280, 800⟩ 0) [headerC9]

/-- C1 counterexample: a large visible header landmark. -/
def hdrC1 : Elem := .mk (blockData "header" "" "" none ⟨0, 0, 800, 300⟩ 2) []

/-- C1 counterexample: a large visible footer landmark. -/
def ftrC1 : Elem := .mk (blockData "footer" "" "" none ⟨0, 300, 800, 300⟩ 3) []

/-- C1 counterexample: an insignificant (classless, hence generic) div
holding the two landmarks. -/
def divC1 : Elem := .mk (blockData "div" "" "" none ⟨0, 0, 800, 600⟩ 1) [hdrC1, ftrC1]

/-- C1 counterexample: the body. -/
def bodyC1 : Elem := .mk (blockData "body" "" "" none ⟨0, 0, 800, 600⟩ 0) [divC1]

/-- C2 counterexample: the nav grandchild. -/
def navC2 : Elem := .mk (blockData "nav" "" "" none ⟨0, 0, 1000, 395⟩ 3) []

/-- C2 counterexample: a significant div (non-generic class, above 10
percent of the viewport) that wrapper-collapses into its nav child. -/
def divC2 : Elem := .mk (blockData "div" "" "foo" none ⟨0, 0, 1000, 400⟩ 2) [navC2]

/-- C2 counterexample: the header root. -/
def hdrC2 : Elem := .mk (blockData "header" "" "" none ⟨0, 0, 1000, 500⟩ 1) [divC2]

/-- C3 counterexample: a header landmark child of a flex row container,
first in document order. -/
def hdrC3 : Elem := .mk (blockData "header" "" "" none ⟨0, 0, 200, 100⟩ 2) []

/-- C3 counterexample: first card-like div. -/
def cardC3a : Elem := .mk (blockData "div" "" "" none ⟨200, 0, 280, 200⟩ 3) []

/-- C3 counterexample: second card-like div. -/
def cardC3b : Elem := .mk (blockData "div" "" "" none ⟨480, 0, 280, 200⟩ 4) []

/-- C3 counterexample: a main landmark laid out as a flex row whose children
are a header landmark followed by two similar card divs. -/
def mainC3 : Elem := .mk {
  kind := .html, tagName := "main", idAttr := "", className := "",
  role := none, typeAttr := none, textContent := "",
  display := "flex", visibility := "visible", opacity := 1,
  flexDirection := "row", rect := ⟨0, 0, 800, 300⟩, docPos := 1 } [hdrC3, cardC3a, cardC3b]

/-- C3 witness: a lone section with no children. -/
def secC3w : Elem := .mk (blockData "section" "" "" none ⟨0, 0, 600, 400⟩ 0) []

/-- C4 grid items (four similar cards within tolerance). -/
def cardC4a : Elem := .mk (blockData "div" "" "" none ⟨0, 0, 280, 200⟩ 2) []

def cardC4b : Elem := .mk (blockData "div" "" "" none ⟨280, 0, 285, 195⟩ 3) []

def cardC4c : Elem := .mk (blockData "div" "" "" none ⟨565, 0, 275, 205⟩ 4) []

def cardC4d : Elem := .mk (blockData "div" "" "" none ⟨840, 0, 280, 200⟩ 5) []

/-- C4 amended scenario: a fifth sibling of width 100 whose area is 1000
(at most the decorative-noise bound), so it is excluded everywhere. -/
def tinyC4 : Elem := .mk (blockData "div" "" "" none ⟨1120, 0, 100, 10⟩ 6) []

/-- C4 counterexample: a fifth sibling of width 100 with area 20000 (above
the decorative-noise bound but outside the 30 percent width tolerance). -/
def wideC4 : Elem := .mk (blockData "div" "" "" none ⟨1120, 0, 100, 200⟩ 6) []

/-- C4 amended scenario: the row-flex section with the tiny fifth sibling. -/
def secC4 : Elem := .mk {
  kind := .html, tagName := "section", idAttr := "", className := "",
  role := none, typeAttr := none, textContent := "",
  display := "flex", visibility := "visible", opacity := 1,
  flexDirection := "row", rect := ⟨0, 0, 1220, 220⟩, docPos := 1 }
  [cardC4a, cardC4b, cardC4c, cardC4d, tinyC4]

/-- C4 counterexample: the same section with the 100 by 200 fifth sibling. -/
def secC4bad : Elem := .mk {
  kind := .html, tagName := "section", idAttr := "", className := "",
  role := none, typeAttr := none, textContent := "",
  display := "flex", visibility := "visible", opacity := 1,
  flexDirection := "row", rect := ⟨0, 0, 1220, 220⟩, docPos := 1 }
  [cardC4a, cardC4b, cardC4c, cardC4d, wideC4]

/-- C5 counterexample: a nav child whose area is exactly 85 percent of its
parent's. -/
def navC5 : Elem := .mk (blockData "nav" "" "" none ⟨0, 0, 340, 300⟩ 2) []

/-- C5 counterexample: a significant non-landmark div (area 120000, above
10 percent of the viewport) whose landmark child covers exactly 85
percent of it (102000). -/
def divC5 : Elem := .mk (blockData "div" "" "foo" none ⟨0, 0, 400, 300⟩ 1) [navC5]

/-- C5 converse scenario: a significant non-landmark div child labeled
Block. -/
def divC5s : Elem := .mk (blockData "div" "" "foo" none ⟨0, 0, 500, 390⟩ 2) []

/-- C5 converse scenario: a section landmark with the one non-landmark div
child covering more than 85 percent. -/
def secC5 : Elem := .mk (blockData "section" "" "" none ⟨0, 0, 500, 400⟩ 1) [divC5s]

/-- An image element for the C6 scenarios, at horizontal offset `x`. -/
def imgAt (x : ℚ) (pos : Nat) : Elem := .mk {
  kind := .html, tagName := "img", idAttr := "", className := "",
  role := none, typeAttr := none, textContent := "",
  display := "inline", visibility := "visible", opacity := 1,
  flexDirection := "row", rect := ⟨x, 0, 40, 40⟩, docPos := pos } []

/-- C6 counterexample: a large SVG (area 1600, above the 400 threshold and
the 30 by 30 minimum), first in document order. -/
def svgC6 : Elem := .mk {
  kind := .svg, tagName := "svg", idAttr := "", className := "",
  role := none, typeAttr := none, textContent := "",
  display := "inline", visibility := "visible", opacity := 1,
  flexDirection := "row", rect := ⟨0, 0, 40, 40⟩, docPos := 2 } []

/-- C6 counterexample: a div with 7 qualifying image descendants, the first
of which is a large SVG. -/
def mixedC6 : Elem := .mk (blockData "div" "" "" none ⟨0, 0, 400, 50⟩ 1)
  [svgC6, imgAt 50 3, imgAt 100 4, imgAt 150 5, imgAt 200 6, imgAt 250 7, imgAt 300 8]

/-- C6 amended scenario: a div with 7 qualifying img descendants. -/
def img7C6 : Elem := .mk (blockData "div" "" "" none ⟨0, 0, 400, 50⟩ 1)
  [imgAt 0 2, imgAt 50 3, imgAt 100 4, imgAt 150 5, imgAt 200 6, imgAt 250 7, imgAt 300 8]

/-- C8 counterexample: an element whose id has exactly 29 characters,
matches the hero pattern, and which also carries a navigation role. -/
def elC8 : Elem := .mk (blockData "div" "hero-abcdefghijklmnopqrstuvwx" ""
  (some "navigation") ⟨0, 0, 500, 400⟩ 1) []

/-- C8 witness input: an element whose id has 30 characters, with a
navigation role, so the cascade skips to the role step. -/
def elC8w : Elem := .mk (blockData "div" "hero-abcdefghijklmnopqrstuvwxy" ""
  (some "navigation") ⟨0, 0, 500, 400⟩ 1) []

/-- The node built for `secC3w` in normal processing. -/
def secC3wNode : WireframeNode := .mk
  { tagName := "section", label := "Section", bbox := ⟨0, 0, 600, 400⟩,
    depth := 0, isLandmark := true, semanticType := .content,
    contentHints := none, srcPos := 0 } []

/-- The node built for `secC3w` when processed as a grid item. -/
def secC3wCard : WireframeNode := .mk
  { tagName := "section", label := "Card", bbox := ⟨0, 0, 600, 400⟩,
    depth := 1, isLandmark := true, semanticType := .card,
    contentHints := none, srcPos := 0 } []

/-- The node built for `navC2` at depth 2; the wrapper collapse of its
significant non-landmark `divC2` parent (processed at depth 1) returns this
node unchanged, so its depth stays 2. -/
def navC2Node : WireframeNode := .mk
  { tagName := "nav", label := "Navigation", bbox := ⟨0, 0, 1000, 395⟩,
    depth := 2, isLandmark := true, semanticType := .navigation,
    contentHints := none, srcPos := 3 } []

/-- The node built for `hdrC2`: its only child carries depth 2 although the
header itself carries depth 0. -/
def hdrC2Node : WireframeNode := .mk
  { tagName := "header", label := "Header", bbox := ⟨0, 0, 1000, 500⟩,
    depth := 0, isLandmark := true, semanticType := .header,
    contentHints := none, srcPos := 1 } [navC2Node]

/-- The node built for `hdrC1` on its own at depth 0. -/
def hdrC1Node : WireframeNode := .mk
  { tagName := "header", label := "Header", bbox := ⟨0, 0, 800, 300⟩,
    depth := 0, isLandmark := true, semanticType := .header,
    contentHints := none, srcPos := 2 } []

/-- The node built for `ftrC1` on its own at depth 0. -/
def ftrC1Node : WireframeNode := .mk
  { tagName := "footer", label := "Footer", bbox := ⟨0, 300, 800, 300⟩,
    depth := 0, isLandmark := true, semanticType := .footer,
    contentHints := none, srcPos := 3 } []

/-- The grid-item node built for `cardC4a`. -/
def cardC4aNode : WireframeNode := .mk
  { tagName := "div", label := "Card", bbox := ⟨0, 0, 280, 200⟩,
    depth := 1, isLandmark := false, semanticType := .card,
    contentHints := none, srcPos := 2 } []

/-- The grid-item node built for `cardC4b`. -/
def cardC4bNode : WireframeNode := .mk
  { tagName := "div", label := "Card", bbox := ⟨280, 0, 285, 195⟩,
    depth := 1, isLandmark := false, semanticType := .card,
    contentHints := none, srcPos := 3 } []

/-- The grid-item node built for `cardC4c`. -/
def cardC4cNode : WireframeNode := .mk
  { tagName := "div", label := "Card", bbox := ⟨565, 0, 275, 205⟩,
    depth := 1, isLandmark := false, semanticType := .card,
    contentHints := none, srcPos := 4 } []

/-- The grid-item node built for `cardC4d`. -/
def cardC4dNode : WireframeNode := .mk
  { tagName := "div", label := "Card", bbox := ⟨840, 0, 280, 200⟩,
    depth := 1, isLandmark := false, semanticType := .card,
    contentHints := none, srcPos := 5 } []

/-- The node built for `secC4`: four card children in document order. -/
def secC4Node : WireframeNode := .mk
  { tagName := "section", label := "Section", bbox := ⟨0, 0, 1220, 220⟩,
    depth := 0, isLandmark := true, semanticType := .content,
    contentHints := none, srcPos := 1 }
  [cardC4aNode, cardC4bNode, cardC4cNode, cardC4dNode]

/-- The node built for `secC4bad`: no grid fires and every child is an
insignificant generic div, so the children list is empty. -/
def secC4badNode : WireframeNode := .mk
  { tagName := "section", label := "Section", bbox := ⟨0, 0, 1220, 220⟩,
    depth := 0, isLandmark := true, semanticType := .content,
    contentHints := none, srcPos := 1 } []

/-- The node built for `navC5` at depth 1. -/
def navC5Node : WireframeNode := .mk
  { tagName := "nav", label := "Navigation", bbox := ⟨0, 0, 340, 300⟩,
    depth := 1, isLandmark := true, semanticType := .navigation,
    contentHints := none, srcPos := 2 } []

/-- The node built for `divC5`: its landmark child covers exactly 85
percent, so the strict similarity test fails and no collapse happens. -/
def divC5Node : WireframeNode := .mk
  { tagName := "div", label := "Block", bbox := ⟨0, 0, 400, 300⟩,
    depth := 0, isLandmark := false, semanticType := .content,
    contentHints := none, srcPos := 1 } [navC5Node]

/-- The node built for `divC5s` at depth 1. -/
def divC5sNode : WireframeNode := .mk
  { tagName := "div", label := "Block", bbox := ⟨0, 0, 500, 390⟩,
    depth := 1, isLandmark := false, semanticType := .content,
    contentHints := none, srcPos := 2 } []

/-- The node built for `secC5`: the landmark section is kept (its child is
labeled Block, so neither collapse direction fires). -/
def secC5Node : WireframeNode := .mk
  { tagName := "section", label := "Section", bbox := ⟨0, 0, 500, 400⟩,
    depth := 0, isLandmark := true, semanticType := .content,
    contentHints := none, srcPos := 1 } [divC5sNode]

/-- The node built for `navC9`: one button content hint for the Contact
anchor. -/
def navC9Node : WireframeNode := .mk
  { tagName := "nav", label := "Navigation", bbox := ⟨0, 0, 1280, 80⟩,
    depth := 1, isLandmark := true, semanticType := .navigation,
    contentHints := some [⟨.button, ⟨1100, 20, 120, 40⟩, some "Contact"⟩],
    srcPos := 2 } []

/-- The node built for `headerC9`: label Header from the id step, with the
nav child (no collapse: the header is itself a landmark with a meaningful
label). -/
def headerC9Node : WireframeNode := .mk
  { tagName := "header", label := "Header", bbox := ⟨0, 0, 1280, 80⟩,
    depth := 0, isLandmark := true, semanticType := .header,
    contentHints := some [⟨.button, ⟨1100, 20, 120, 40⟩, some "Contact"⟩],
    srcPos := 1 } [navC9Node]

/-- The grid-item node built for `cardC3a`. -/
def cardC3aNode : WireframeNode := .mk
  { tagName := "div", label := "Card", bbox := ⟨200, 0, 280, 200⟩,
    depth := 1, isLandmark := false, semanticType := .card,
    contentHints := none, srcPos := 3 } []

/-- The grid-item node built for `cardC3b`. -/
def cardC3bNode : WireframeNode := .mk
  { tagName := "div", label := "Card", bbox := ⟨480, 0, 280, 200⟩,
    depth := 1, isLandmark := false, semanticType := .card,
    contentHints := none, srcPos := 4 } []

/-- The node built for `hdrC3` at depth 1. -/
def hdrC3Node : WireframeNode := .mk
  { tagName := "header", label := "Header", bbox := ⟨0, 0, 200, 100⟩,
    depth := 1, isLandmark := true, semanticType := .header,
    contentHints := none, srcPos := 2 } []

/-- The node built for `mainC3`: the two grid cards come first and the
document-first header landmark child comes last, so the children are out
of document order. -/
def mainC3Node : WireframeNode := .mk
  { tagName := "main", label := "Main Content", bbox := ⟨0, 0, 800, 300⟩,
    depth := 0, isLandmark := true, semanticType := .content,
    contentHints := none, srcPos := 1 }
  [cardC3aNode, cardC3bNode, hdrC3Node]

/-! ## Unfolding and traversal lemmas -/

theorem preOrder_eq (el : Elem) : preOrder el = el :: preOrderList el.children := by
  rw [preOrder]

theorem preOrderList_nil : preOrderList [] = [] := by rw [preOrderList]

theorem preOrderList_cons (c : Elem) (cs : List Elem) :
    preOrderList (c :: cs) = preOrder c ++ preOrderList cs := by rw [preOrderList]

theorem buildChildList_eq (env : Env) (l : List Elem) (d : Nat) (va : ℚ)
    (cfg : AnalyzerConfig) :
    buildChildList env l d va cfg =
      l.flatMap (fun c => if c.kind == EKind.html
        then (buildNodeTree env c d va cfg false).toList else []) := by
  induction l with
  | nil => rw [buildChildList]; rfl
  | cons c cs ih =>
      rw [buildChildList]
      simp only [ih, List.flatMap_cons]
      split
      · cases buildNodeTree env c d va cfg false <;> simp
      · simp

theorem buildGridList_eq (env : Env) (l : List Elem) (d : Nat) (va : ℚ)
    (cfg : AnalyzerConfig) :
    buildGridList env l d va cfg =
      l.flatMap (fun c => (buildNodeTree env c d va cfg true).toList) := by
  induction l with
  | nil => rw [buildGridList]; rfl
  | cons c cs ih =>
      rw [buildGridList]
      simp only [ih, List.flatMap_cons]
      cases buildNodeTree env c d va cfg true <;> simp

theorem buildLandmarkList_eq (env : Env) (l : List Elem) (d : Nat) (va : ℚ)
    (cfg : AnalyzerConfig) :
    buildLandmarkList env l d va cfg =
      l.flatMap (fun c => if c.kind == EKind.html && isLandmark c
        then (buildNodeTree env c d va cfg false).toList else []) := by
  induction l with
  | nil => rw [buildLandmarkList]; rfl
  | cons c cs ih =>
      rw [buildLandmarkList]
      simp only [ih, List.flatMap_cons]
      split
      · cases buildNodeTree env c d va cfg false <;> simp
      · simp

theorem nodeAll_eq (p : WireframeNode → Bool) (n : WireframeNode) :
    nodeAll p n = (p n && nodeAllList p n.children) := by rw [nodeAll]

theorem nodeAllList_iff (p : WireframeNode → Bool) (l : List WireframeNode) :
    nodeAllList p l = true ↔ ∀ n ∈ l, nodeAll p n = true := by
  induction l with
  | nil => simp [nodeAllList]
  | cons n ns ih =>
      rw [nodeAllList]
      simp only [Bool.and_eq_true, ih, List.mem_cons]
      constructor
      · rintro ⟨h1, h2⟩ m hm
        rcases hm with rfl | hm
        · exact h1
        · exact h2 m hm
      · intro h
        exact ⟨h n (Or.inl rfl), fun m hm => h m (Or.inr hm)⟩

theorem nodeAllList_append (p : WireframeNode → Bool) (a b : List WireframeNode) :
    nodeAllList p (a ++ b) = (nodeAllList p a && nodeAllList p b) := by
  induction a with
  | nil => rw [nodeAllList]; simp
  | cons n ns ih =>
      rw [List.cons_append, nodeAllList, nodeAllList]
      rw [ih, Bool.and_assoc]

/-! ## C7: the defended content-hint extraction -/

/-- C7: content-hint extraction never propagates a failure: the catch maps
every raised error to the empty hint list and passes every ok result
through unchanged; the defended extractor is the catch of the unsafe one,
and `buildNodeTree` and `analyzeDom` are total. -/
theorem C7_hint_errors_defused :
    (∀ r : Except String (List ContentHint),
       (∀ e, r = Except.error e → catchHints r = []) ∧
       (∀ hs, r = Except.ok hs → catchHints r = hs)) ∧
    (∀ env el, detectContentHints env el =
       catchHints (Except.ok (detectContentHintsUnsafe env el))) ∧
    (∀ env el, detectContentHints env el = detectContentHintsUnsafe env el) ∧
    (∀ env body cfg, ∃ m, analyzeDom env body cfg = m) ∧
    (∀ env el d va cfg g, ∃ r, buildNodeTree env el d va cfg g = r) := by
  refine ⟨?_, ?_, ?_, ?_, ?_⟩
  · intro r
    constructor
    · intro e he; rw [he]; rfl
    · intro hs hh; rw [hh]; rfl
  · intro env el; rfl
  · intro env el; rfl
  · intro env body cfg; exact ⟨_, rfl⟩
  · intro env el d va cfg g; exact ⟨_, rfl⟩

/-- C7 witness: the catch at a concrete error and a concrete ok value. -/
theorem C7_hint_errors_defused_witness :
    catchHints (Except.error "host read failure") = [] ∧
    catchHints (Except.ok [ContentHint.mk .text ⟨0, 0, 60, 20⟩ none]) =
      [ContentHint.mk .text ⟨0, 0, 60, 20⟩ none] :=
  ⟨(C7_hint_errors_defused.1 _).1 "host read failure" rfl,
   (C7_hint_errors_defused.1 _).2 _ rfl⟩

/-! ## C8: the id step of the label cascade -/

/-- C8 (amended): when class patterns do not match, the id-based step of the
label cascade is taken exactly when the id length lies in the half-open
interval from 3 to 30 (that is, `2 < length < 30`); otherwise the cascade
continues with the ARIA-role step and its successors. -/
theorem C8_id_step_interval :
    ∀ el : Elem, getClassLabel el = none →
      ((2 < el.idAttr.length ∧ el.idAttr.length < 30) →
        generateLabel el = idStepLabel el) ∧
      (¬(2 < el.idAttr.length ∧ el.idAttr.length < 30) →
        generateLabel el = postIdLabel el) := by
  intro el h
  unfold generateLabel
  rw [h]
  constructor
  · intro hc
    have hne : el.idAttr ≠ "" := by
      intro he
      rw [he] at hc
      simp at hc
    rw [if_pos ⟨hne, hc.1, hc.2⟩]
  · intro hc
    rw [if_neg (fun hh => hc ⟨hh.2.1, hh.2.2⟩)]

/-- C8 counterexample: for an id of length 29 the code still takes the id
step (29 < 30), although the claim's interval [3, 29) excludes it: the
pattern table matches the id and yields Hero, while the claimed skip to the
ARIA-role step would yield Navigation. -/
theorem C8_id_step_interval_counterexample :
    getClassLabel elC8 = none ∧ elC8.idAttr.length = 29 ∧
    elC8.role = some "navigation" ∧ roleLabelLookup "navigation" = some "Navigation" ∧
    generateLabel elC8 = "Hero" ∧ postIdLabel elC8 = "Navigation" := by
  refine ⟨by decide, by decide, by decide, by decide, by decide, by decide⟩

/-- C8 witness: the cascade property applied at a 29-character id (id step
taken) and at a 30-character id (skipped to the role step). -/
theorem C8_id_step_interval_witness :
    (getClassLabel elC8 = none ∧ 2 < elC8.idAttr.length ∧ elC8.idAttr.length < 30 ∧
      generateLabel elC8 = idStepLabel elC8) ∧
    (getClassLabel elC8w = none ∧ ¬(2 < elC8w.idAttr.length ∧ elC8w.idAttr.length < 30) ∧
      generateLabel elC8w = postIdLabel elC8w) := by
  refine ⟨⟨by decide, by decide, by decide,
            (C8_id_step_interval elC8 (by decide)).1 ⟨by decide, by decide⟩⟩,
          ⟨by decide, by decide,
            (C8_id_step_interval elC8w (by decide)).2 (by decide)⟩⟩

/-! ## A generic induction principle for the tree reducer

Every node in a `buildNodeTree` result either is a materialized node whose
direct children were built one level deeper, or was passed through
unchanged by insignificant-container promotion (same level) or wrapper
collapse (one level deeper). -/

theorem Elem.sizeOf_lt_of_mem_children {c el : Elem} (h : c ∈ el.children) :
    sizeOf c < sizeOf el :=
  Nat.lt_trans (List.sizeOf_lt_of_mem h) el.sizeOf_children_lt

mutual

theorem bnt_ind (P : Nat → WireframeNode → Prop)
    (hmono : ∀ d n, P (d + 1) n → P d n)
    (hmat : ∀ env el d bbox g childNodes, (∀ c ∈ childNodes, P (d + 1) c) →
      P d (materializeNode env el d bbox g childNodes))
    (env : Env) (el : Elem) (d : Nat) (va : ℚ) (cfg : AnalyzerConfig) (g : Bool)
    (n : WireframeNode) (h : buildNodeTree env el d va cfg g = some n) : P d n := by
  rw [buildNodeTree] at h
  cases g with
  | true =>
      rw [if_neg (by simp)] at h
      by_cases h2 : isElementVisible el = false
      · rw [if_pos h2] at h; exact absurd h (by simp)
      · rw [if_neg h2] at h
        dsimp only at h
        rw [if_neg (by simp)] at h
        split at h
        case _ items heq => exact absurd heq (by simp)
        case _ heq =>
          clear heq
          rw [if_pos rfl] at h
          simp only [Bool.true_or] at h
          rw [if_neg (by simp)] at h
          rw [if_neg (by simp)] at h
          simp only [Option.getD_none] at h
          obtain rfl : _ = n := Option.some.inj h
          exact hmat env el d _ true [] (by simp)
  | false =>
      by_cases h1 : d > cfg.maxDepth
      · rw [if_pos ⟨h1, rfl⟩] at h; exact absurd h (by simp)
      · rw [if_neg (by simp [h1])] at h
        by_cases h2 : isElementVisible el = false
        · rw [if_pos h2] at h; exact absurd h (by simp)
        · rw [if_neg h2] at h
          dsimp only at h
          simp only [Bool.false_or] at h
          simp only [show (false = true) = False from by simp, if_false] at h
          split at h
          case _ items heq =>
            simp only [Bool.false_or] at heq
            have heqD : detectGridItems el = some items := by
              by_cases hc : isSignificant env el va cfg = true
              · rwa [if_pos (show _ ∧ True from ⟨hc, trivial⟩)] at heq
              · rw [if_neg (fun hh => hc hh.1)] at heq
                exact absurd heq (by simp)
            obtain rfl : _ = n := Option.some.inj h
            apply hmat
            intro c hc
            rcases List.mem_append.mp hc with hmem | hmem
            · rw [buildGridList_eq] at hmem
              obtain ⟨x, hx, hcx⟩ := List.mem_flatMap.mp hmem
              have hsome : buildNodeTree env x (d + 1) va cfg true = some c := by
                rcases hopt : buildNodeTree env x (d + 1) va cfg true with _ | y
                · rw [hopt] at hcx; exact absurd hcx (by simp)
                · rw [hopt] at hcx
                  simp at hcx
                  rw [hcx]
              exact bnt_ind P hmono hmat env x (d + 1) va cfg true c hsome
            · rw [buildLandmarkList_eq] at hmem
              obtain ⟨x, hx, hcx⟩ := List.mem_flatMap.mp hmem
              by_cases hk : (x.kind == EKind.html && isLandmark x) = true
              · rw [if_pos hk] at hcx
                have hsome : buildNodeTree env x (d + 1) va cfg false = some c := by
                  rcases hopt : buildNodeTree env x (d + 1) va cfg false with _ | y
                  · rw [hopt] at hcx; exact absurd hcx (by simp)
                  · rw [hopt] at hcx
                    simp at hcx
                    rw [hcx]
                exact bnt_ind P hmono hmat env x (d + 1) va cfg false c hsome
              · rw [if_neg hk] at hcx
                exact absurd hcx (by simp)
          case _ heq =>
            clear heq
            by_cases hsig : isSignificant env el va cfg = true
            · rw [if_neg (by simp [hsig])] at h
              rw [if_pos hsig] at h
              obtain hn : _ = n := Option.some.inj h
              rcases hB : buildChildList env el.children (d + 1) va cfg
                  with _ | ⟨c, _ | ⟨c2, rest⟩⟩
              · rw [hB] at hn
                rw [if_neg (by simp)] at hn
                rw [Option.getD_none] at hn
                rw [← hn]
                exact hmat env el d _ false [] (by simp)
              · rw [hB] at hn
                have hc : P (d + 1) c :=
                  bcl_mem_ind P hmono hmat env el.children (d + 1) va cfg c
                    (by rw [hB]; exact List.mem_singleton.mpr rfl)
                rw [if_pos (by simp)] at hn
                simp only [List.head?_cons, Option.some_bind] at hn
                by_cases hb1 : bboxesSimilar (getAbsoluteBoundingBox env el) c.bbox = true
                · rw [if_pos hb1] at hn
                  by_cases hb2 : isLandmark el = false ∧ c.isLandmark = true
                  · rw [if_pos hb2, Option.getD_some] at hn
                    rw [← hn]
                    exact hmono d c hc
                  · rw [if_neg hb2] at hn
                    by_cases hb3 : (generateLabel el = "Block" ∨ generateLabel el = "Section") ∧
                        c.label ≠ "Block" ∧ c.label ≠ "Section"
                    · rw [if_pos hb3, Option.getD_some] at hn
                      rw [← hn]
                      exact hmono d c hc
                    · rw [if_neg hb3, Option.getD_none] at hn
                      rw [← hn]
                      exact hmat env el d _ false [c]
                        (by intro x hx; rcases List.mem_singleton.mp hx with rfl; exact hc)
                · rw [if_neg hb1, Option.getD_none] at hn
                  rw [← hn]
                  exact hmat env el d _ false [c]
                    (by intro x hx; rcases List.mem_singleton.mp hx with rfl; exact hc)
              · rw [hB] at hn
                rw [if_neg (by simp)] at hn
                rw [Option.getD_none] at hn
                rw [← hn]
                apply hmat
                intro x hx
                rw [← hB] at hx
                exact bcl_mem_ind P hmono hmat env el.children (d + 1) va cfg x hx
            · have hsigf : isSignificant env el va cfg = false := by
                revert hsig; cases isSignificant env el va cfg <;> simp
              rw [if_neg hsig] at h
              rw [if_pos hsigf] at h
              rcases hB : buildChildList env el.children d va cfg
                  with _ | ⟨c, _ | ⟨c2, rest⟩⟩
              · rw [hB] at h
                rw [if_neg (by simp)] at h
                exact absurd h (by simp)
              · rw [hB] at h
                rw [if_pos (by simp)] at h
                simp only [List.head?_cons] at h
                obtain rfl : c = n := Option.some.inj h
                exact bcl_mem_ind P hmono hmat env el.children d va cfg _
                  (by rw [hB]; exact List.mem_singleton.mpr rfl)
              · rw [hB] at h
                rw [if_neg (by simp)] at h
                exact absurd h (by simp)
termination_by sizeOf el
decreasing_by
  all_goals first
    | exact Elem.sizeOf_lt_of_mem_children ((detectGridItems_sublist heqD).subset hx)
    | exact Elem.sizeOf_lt_of_mem_children hx
    | exact el.sizeOf_children_lt

theorem bcl_mem_ind (P : Nat → WireframeNode → Prop)
    (hmono : ∀ d n, P (d + 1) n → P d n)
    (hmat : ∀ env el d bbox g childNodes, (∀ c ∈ childNodes, P (d + 1) c) →
      P d (materializeNode env el d bbox g childNodes))
    (env : Env) (l : List Elem) (d : Nat) (va : ℚ) (cfg : AnalyzerConfig)
    (n : WireframeNode) (h : n ∈ buildChildList env l d va cfg) : P d n := by
  match l with
  | [] => rw [buildChildList] at h; exact absurd h (by simp)
  | c :: cs =>
      rw [buildChildList] at h
      split at h
      · split at h
        · rename_i node hnode
          rcases List.mem_cons.mp h with rfl | hmem
          · exact bnt_ind P hmono hmat env c d va cfg false n hnode
          · exact bcl_mem_ind P hmono hmat env cs d va cfg n hmem
        · exact bcl_mem_ind P hmono hmat env cs d va cfg n h
      · exact bcl_mem_ind P hmono hmat env cs d va cfg n h
termination_by sizeOf l
decreasing_by
  all_goals (simp; try omega)

end

/-- Helper: any node built with the grid-item flag set is the bare
materialization of its element, with no recursion into children. -/
theorem buildNodeTree_gridItem (env : Env) (el : Elem) (d : Nat) (va : ℚ)
    (cfg : AnalyzerConfig) (n : WireframeNode)
    (h : buildNodeTree env el d va cfg true = some n) :
    n = materializeNode env el d (getAbsoluteBoundingBox env el) true [] := by
  rw [buildNodeTree] at h
  rw [if_neg (by simp)] at h
  by_cases h2 : isElementVisible el = false
  · rw [if_pos h2] at h; exact absurd h (by simp)
  · rw [if_neg h2] at h
    dsimp only at h
    rw [if_neg (by simp)] at h
    split at h
    case _ items heq => exact absurd heq (by simp)
    case _ heq =>
      clear heq
      rw [if_pos rfl] at h
      simp only [Bool.true_or] at h
      rw [if_neg (by simp)] at h
      rw [if_neg (by simp)] at h
      simp only [Option.getD_none] at h
      exact (Option.some.inj h).symm

/-! ## Concrete evaluations for the C2 scenario -/

theorem navC2_descendants : descendants navC2 = [] := by
  simp [descendants, preOrderList, navC2, Elem.children]

theorem navC2_hints : detectContentHints envStd navC2 = [] := by
  have h1 : imageStep envStd navC2 (HintState.mk [] 0 0 0 0) = HintState.mk [] 0 0 0 0 := by
    simp only [imageStep, queryAll, navC2_descendants]; with_unfolding_all rfl
  have h2 : largeSvgStep envStd navC2 (HintState.mk [] 0 0 0 0) = HintState.mk [] 0 0 0 0 := by
    simp only [largeSvgStep, queryAll, navC2_descendants]; with_unfolding_all rfl
  have h3 : buttonStep envStd navC2 (HintState.mk [] 0 0 0 0) = HintState.mk [] 0 0 0 0 := by
    simp only [buttonStep, queryAll, navC2_descendants]; with_unfolding_all rfl
  have h4 : svgIconStep envStd navC2 (HintState.mk [] 0 0 0 0) = HintState.mk [] 0 0 0 0 := by
    simp only [svgIconStep, queryAll, navC2_descendants]; with_unfolding_all rfl
  have h5 : iconFontStep envStd navC2 (HintState.mk [] 0 0 0 0) = HintState.mk [] 0 0 0 0 := by
    simp only [iconFontStep, queryAll, navC2_descendants]; with_unfolding_all rfl
  have h6 : textStep envStd navC2 (HintState.mk [] 0 0 0 0) = HintState.mk [] 0 0 0 0 := by
    simp only [textStep, queryAll, navC2_descendants]; with_unfolding_all rfl
  rw [detectContentHints, detectContentHintsUnsafe, h1, h2, h3, h4, h5, h6]
  rfl

theorem navC2_build : buildNodeTree envStd navC2 2 (1280 * 800) DEFAULT_CONFIG false =
    some navC2Node := by
  have hlbl : generateLabel navC2 = "Navigation" := by with_unfolding_all decide
  have hsem : getSemanticType navC2 "Navigation" = SemanticType.navigation := by
    with_unfolding_all decide
  rw [buildNodeTree]
  simp only [buildChildList_eq, materializeNode, navC2_hints, hlbl, hsem]
  with_unfolding_all rfl

theorem divC2_build : buildNodeTree envStd divC2 1 (1280 * 800) DEFAULT_CONFIG false =
    some navC2Node := by
  have hch : divC2.children = [navC2] := rfl
  have hsig : isSignificant envStd divC2 (1280 * 800) DEFAULT_CONFIG = true := by
    with_unfolding_all decide
  rw [buildNodeTree]
  simp only [buildChildList_eq, hch, Bool.false_or, hsig, List.flatMap_cons,
    List.flatMap_nil, navC2_build]
  with_unfolding_all rfl

theorem hdrC2_descendants : descendants hdrC2 = [divC2, navC2] := by
  simp [descendants, preOrderList, preOrder, hdrC2, divC2, navC2, Elem.children]

theorem hdrC2_hints : detectContentHints envStd hdrC2 = [] := by
  have h1 : imageStep envStd hdrC2 (HintState.mk [] 0 0 0 0) = HintState.mk [] 0 0 0 0 := by
    simp only [imageStep, queryAll, hdrC2_descendants]; with_unfolding_all rfl
  have h2 : largeSvgStep envStd hdrC2 (HintState.mk [] 0 0 0 0) = HintState.mk [] 0 0 0 0 := by
    simp only [largeSvgStep, queryAll, hdrC2_descendants]; with_unfolding_all rfl
  have h3 : buttonStep envStd hdrC2 (HintState.mk [] 0 0 0 0) = HintState.mk [] 0 0 0 0 := by
    simp only [buttonStep, queryAll, hdrC2_descendants]; with_unfolding_all rfl
  have h4 : svgIconStep envStd hdrC2 (HintState.mk [] 0 0 0 0) = HintState.mk [] 0 0 0 0 := by
    simp only [svgIconStep, queryAll, hdrC2_descendants]; with_unfolding_all rfl
  have h5 : iconFontStep envStd hdrC2 (HintState.mk [] 0 0 0 0) = HintState.mk [] 0 0 0 0 := by
    simp only [iconFontStep, queryAll, hdrC2_descendants]; with_unfolding_all rfl
  have h6 : textStep envStd hdrC2 (HintState.mk [] 0 0 0 0) = HintState.mk [] 0 0 0 0 := by
    simp only [textStep, queryAll, hdrC2_descendants]; with_unfolding_all rfl
  rw [detectContentHints, detectContentHintsUnsafe, h1, h2, h3, h4, h5, h6]
  rfl

theorem hdrC2_build : buildNodeTree envStd hdrC2 0 (1280 * 800) DEFAULT_CONFIG false =
    some hdrC2Node := by
  have hch : hdrC2.children = [divC2] := rfl
  have hsig : isSignificant envStd hdrC2 (1280 * 800) DEFAULT_CONFIG = true := by
    with_unfolding_all decide
  have hlbl : generateLabel hdrC2 = "Header" := by with_unfolding_all decide
  have hsem : getSemanticType hdrC2 "Header" = SemanticType.header := by
    with_unfolding_all decide
  have hgrid : detectGridItems hdrC2 = none := by with_unfolding_all rfl
  have hkind : (divC2.kind == EKind.html) = true := by with_unfolding_all rfl
  have hbbox : bboxesSimilar (getAbsoluteBoundingBox envStd hdrC2) navC2Node.bbox = false := by
    with_unfolding_all decide
  have hlm : isLandmark hdrC2 = true := by with_unfolding_all decide
  have habs : getAbsoluteBoundingBox envStd hdrC2 = BoundingBox.mk 0 0 1000 500 := by
    with_unfolding_all decide
  rw [buildNodeTree]
  simp only [buildChildList_eq, hch, Bool.false_or, hsig, hgrid, List.flatMap_cons,
    List.flatMap_nil, hkind, if_true, Nat.zero_add, divC2_build, Option.toList_some,
    List.append_nil, List.length_cons, List.length_nil, List.head?_cons, Option.some_bind,
    hbbox, hlm, materializeNode, hdrC2_hints, hlbl, hsem, habs]
  with_unfolding_all rfl

/-! ## Concrete evaluations for the `secC3w` element -/

theorem secC3w_descendants : descendants secC3w = [] := by
  simp [descendants, preOrderList, secC3w, Elem.children]

theorem secC3w_hints : detectContentHints envStd secC3w = [] := by
  simp only [detectContentHints, catchHints, detectContentHintsUnsafe, imageStep,
    largeSvgStep, buttonStep, svgIconStep, iconFontStep, textStep, queryAll,
    secC3w_descendants]
  with_unfolding_all rfl

theorem secC3w_label : generateLabel secC3w = "Section" := by
  simp only [generateLabel, postIdLabel, inferLabelFromContent, queryFirst,
    secC3w_descendants]
  with_unfolding_all rfl

theorem secC3w_build : buildNodeTree envStd secC3w 0 (1280 * 800) DEFAULT_CONFIG false =
    some secC3wNode := by
  rw [buildNodeTree]
  simp only [buildChildList_eq, materializeNode, secC3w_hints, secC3w_label]
  with_unfolding_all rfl

theorem secC3w_build_grid : buildNodeTree envStd secC3w 1 (1280 * 800) DEFAULT_CONFIG true =
    some secC3wCard := by
  rw [buildNodeTree]
  have hgl : inferGridItemLabel secC3w = "Card" := by
    simp only [inferGridItemLabel, inferLabelFromContent, queryFirst, secC3w_descendants]
    with_unfolding_all rfl
  simp only [buildChildList_eq, materializeNode, secC3w_hints, hgl]
  with_unfolding_all rfl

/-! ## Claim C2 -/

/-- C2 (amended): in every tree the analyzer builds, a child's depth is at
least its parent's depth plus one (equality can fail: promotion of an
insignificant wrapper hands the parent children built two levels deeper),
and a node built in grid-item mode carries exactly the requested depth and
has no children. The original claim's equality `child.depth = parent.depth
+ 1` is refuted by `C2_depth_steps_counterexample`. -/
theorem C2_depth_steps :
    (∀ env el d va cfg g n, buildNodeTree env el d va cfg g = some n →
       d ≤ n.depth ∧ nodeAll depthStepOK n = true) ∧
    (∀ env el d va cfg n, buildNodeTree env el d va cfg true = some n →
       n.depth = d ∧ n.children = []) := by
  constructor
  · intro env el d va cfg g n h
    apply bnt_ind (fun d n => d ≤ n.depth ∧ nodeAll depthStepOK n = true)
    · intro d n hp
      exact ⟨Nat.le_trans (Nat.le_succ d) hp.1, hp.2⟩
    · intro env el d bbox g childNodes hkids
      constructor
      · simp [materializeNode, WireframeNode.depth, WireframeNode.data]
      · rw [nodeAll_eq]
        apply Bool.and_eq_true_iff.mpr
        constructor
        · simp only [depthStepOK, materializeNode, WireframeNode.depth,
            WireframeNode.data, WireframeNode.children]
          rw [List.all_eq_true]
          intro c hc
          exact decide_eq_true (hkids c hc).1
        · rw [nodeAllList_iff]
          intro c hc
          exact (hkids c (by simpa [materializeNode, WireframeNode.children] using hc)).2
    · exact h
  · intro env el d va cfg n h
    have hn := buildNodeTree_gridItem env el d va cfg n h
    rw [hn]
    constructor
    · simp [materializeNode, WireframeNode.depth, WireframeNode.data]
    · simp [materializeNode, WireframeNode.children]

/-- C2 counterexample: a header whose significant wrapper div collapses
into its nav grandchild gives a root of depth 0 with a single child of
depth 2, refuting `child.depth = parent.depth + 1`. -/
theorem C2_depth_steps_counterexample :
    buildNodeTree envStd hdrC2 0 (1280 * 800) DEFAULT_CONFIG false = some hdrC2Node ∧
    hdrC2Node.depth = 0 ∧
    hdrC2Node.children.map WireframeNode.depth = [2] :=
  ⟨hdrC2_build, rfl, rfl⟩

/-- C2 witness: both parts of the amended depth claim applied at a concrete
build of `secC3w`, first in normal mode at depth 0 and then in grid-item
mode at depth 1. -/
theorem C2_depth_steps_witness :
    (buildNodeTree envStd secC3w 0 (1280 * 800) DEFAULT_CONFIG false = some secC3wNode ∧
      0 ≤ secC3wNode.depth ∧ nodeAll depthStepOK secC3wNode = true) ∧
    (buildNodeTree envStd secC3w 1 (1280 * 800) DEFAULT_CONFIG true = some secC3wCard ∧
      secC3wCard.depth = 1 ∧ secC3wCard.children = []) :=
  ⟨⟨secC3w_build,
    C2_depth_steps.1 envStd secC3w 0 (1280 * 800) DEFAULT_CONFIG false secC3wNode
      secC3w_build⟩,
   ⟨secC3w_build_grid,
    C2_depth_steps.2 envStd secC3w 1 (1280 * 800) DEFAULT_CONFIG secC3wCard
      secC3w_build_grid⟩⟩

/-! ## Claim C10 -/

/-- C10: in every node the analyzer materializes, the contentHints field is
either `none` or a non-empty list; no node carries an empty hint list. This
holds for every node produced by `buildNodeTree` and for every root node
returned by `analyzeDom`. -/
theorem C10_content_hints_nonempty :
    (∀ env el d va cfg g n, buildNodeTree env el d va cfg g = some n →
       nodeAll hintsNonEmptyOK n = true) ∧
    (∀ env body cfg, ∀ n ∈ (analyzeDom env body cfg).nodes,
       nodeAll hintsNonEmptyOK n = true) := by
  have hmat : ∀ env el d bbox g childNodes,
      (∀ c ∈ childNodes, (fun (_ : Nat) n => nodeAll hintsNonEmptyOK n = true) (d + 1) c) →
      (fun (_ : Nat) n => nodeAll hintsNonEmptyOK n = true) d
        (materializeNode env el d bbox g childNodes) := by
    intro env el d bbox g childNodes hkids
    rw [nodeAll_eq]
    apply Bool.and_eq_true_iff.mpr
    constructor
    · simp only [materializeNode, hintsNonEmptyOK, WireframeNode.contentHints,
        WireframeNode.data]
      split
      · rfl
      · rename_i hs hlen
        split at hlen
        · rename_i hpos
          obtain rfl : _ = hs := Option.some.inj hlen
          have hne : detectContentHints env el ≠ [] := List.length_pos.mp hpos
          rw [show (detectContentHints env el).isEmpty = false from
            List.isEmpty_eq_false.mpr hne]
          rfl
        · exact absurd hlen (by simp)
    · rw [nodeAllList_iff]
      intro c hc
      simpa using hkids c (by simpa [materializeNode, WireframeNode.children] using hc)
  constructor
  · intro env el d va cfg g n h
    exact bnt_ind (fun _ n => nodeAll hintsNonEmptyOK n = true)
      (fun d n hp => hp) hmat env el d va cfg g n h
  · intro env body cfg n hn
    simp only [analyzeDom] at hn
    exact bcl_mem_ind (fun _ n => nodeAll hintsNonEmptyOK n = true)
      (fun d n hp => hp) hmat env body.children 0 _ _ n hn

/-- C10 witness: the invariant applied at the concrete build of `secC3w`,
whose hint list is empty and whose contentHints field is therefore `none`. -/
theorem C10_content_hints_nonempty_witness :
    buildNodeTree envStd secC3w 0 (1280 * 800) DEFAULT_CONFIG false = some secC3wNode ∧
    nodeAll hintsNonEmptyOK secC3wNode = true :=
  ⟨secC3w_build,
   C10_content_hints_nonempty.1 envStd secC3w 0 (1280 * 800) DEFAULT_CONFIG false
     secC3wNode secC3w_build⟩

/-! ## Concrete evaluations for the C1 scenario -/

theorem hdrC1_descendants : descendants hdrC1 = [] := by
  simp [descendants, preOrderList, hdrC1, Elem.children]

theorem hdrC1_hints : detectContentHints envStd hdrC1 = [] := by
  simp only [detectContentHints, catchHints, detectContentHintsUnsafe, imageStep,
    largeSvgStep, buttonStep, svgIconStep, iconFontStep, textStep, queryAll,
    hdrC1_descendants]
  with_unfolding_all rfl

theorem hdrC1_build : buildNodeTree envStd hdrC1 0 (1280 * 800) DEFAULT_CONFIG false =
    some hdrC1Node := by
  have hlbl : generateLabel hdrC1 = "Header" := by with_unfolding_all decide
  have hsem : getSemanticType hdrC1 "Header" = SemanticType.header := by
    with_unfolding_all decide
  rw [buildNodeTree]
  simp only [buildChildList_eq, materializeNode, hdrC1_hints, hlbl, hsem]
  with_unfolding_all rfl

theorem ftrC1_descendants : descendants ftrC1 = [] := by
  simp [descendants, preOrderList, ftrC1, Elem.children]

theorem ftrC1_hints : detectContentHints envStd ftrC1 = [] := by
  simp only [detectContentHints, catchHints, detectContentHintsUnsafe, imageStep,
    largeSvgStep, buttonStep, svgIconStep, iconFontStep, textStep, queryAll,
    ftrC1_descendants]
  with_unfolding_all rfl

theorem ftrC1_build : buildNodeTree envStd ftrC1 0 (1280 * 800) DEFAULT_CONFIG false =
    some ftrC1Node := by
  have hlbl : generateLabel ftrC1 = "Footer" := by with_unfolding_all decide
  have hsem : getSemanticType ftrC1 "Footer" = SemanticType.footer := by
    with_unfolding_all decide
  rw [buildNodeTree]
  simp only [buildChildList_eq, materializeNode, ftrC1_hints, hlbl, hsem]
  with_unfolding_all rfl

/-- The insignificant wrapper div drops both of its landmark children: with
two surviving child nodes the bubble-up rule returns nothing. -/
theorem divC1_build : buildNodeTree envStd divC1 0 (1280 * 800) DEFAULT_CONFIG false =
    none := by
  have hch : divC1.children = [hdrC1, ftrC1] := rfl
  have hsig : isSignificant envStd divC1 (1280 * 800) DEFAULT_CONFIG = false := by
    with_unfolding_all decide
  have hgrid : detectGridItems divC1 = none := by with_unfolding_all rfl
  have hk1 : (hdrC1.kind == EKind.html) = true := by with_unfolding_all rfl
  have hk2 : (ftrC1.kind == EKind.html) = true := by with_unfolding_all rfl
  rw [buildNodeTree]
  simp only [buildChildList_eq, hch, Bool.false_or, hsig, hgrid, List.flatMap_cons,
    List.flatMap_nil, hk1, hk2, if_true, Bool.false_eq_true, if_false,
    hdrC1_build, ftrC1_build, Option.toList_some, List.append_nil,
    List.length_cons, List.length_nil]
  with_unfolding_all rfl

theorem mergeConfig_empty : mergeConfig DEFAULT_CONFIG {} = DEFAULT_CONFIG := by
  with_unfolding_all rfl

/-- A visible element classified significant and processed at a legal depth
always yields a node (possibly a collapsed child). -/
theorem buildNodeTree_significant_some (env : Env) (el : Elem) (d : Nat) (va : ℚ)
    (cfg : AnalyzerConfig) (hd : d ≤ cfg.maxDepth) (hvis : isElementVisible el = true)
    (hsig : isSignificant env el va cfg = true) :
    ∃ n, buildNodeTree env el d va cfg false = some n := by
  rw [buildNodeTree]
  rw [if_neg (fun h => absurd h.1 (Nat.not_lt.mpr hd))]
  rw [if_neg (by simp [hvis])]
  dsimp only
  split
  · exact ⟨_, rfl⟩
  · rw [if_neg (by simp [hsig])]
    exact ⟨_, rfl⟩

/-! ## Claim C1 -/

/-- C1 (amended): a landmark element whose tag is not a skip tag and whose
box area meets `minArea` is always classified significant; and a visible
significant element processed at a legal depth always yields a node when it
is itself the element being built. The original claim — that every such
landmark appears in the returned model — is refuted by
`C1_landmark_significance_counterexample`: an insignificant wrapper with
two landmark children drops both, because the bubble-up rule returns
nothing when more than one child node survives. -/
theorem C1_landmark_significance :
    (∀ env el va cfg, SKIP_TAGS.contains el.tagName = false →
       isLandmark el = true →
       cfg.minArea ≤ (getAbsoluteBoundingBox env el).width *
         (getAbsoluteBoundingBox env el).height →
       isSignificant env el va cfg = true) ∧
    (∀ env el d va cfg, d ≤ cfg.maxDepth → isElementVisible el = true →
       isSignificant env el va cfg = true →
       ∃ n, buildNodeTree env el d va cfg false = some n) := by
  constructor
  · intro env el va cfg hskip hlm harea
    rw [isSignificant]
    dsimp only
    rw [hskip]
    simp only [Bool.false_eq_true, if_false]
    rw [if_neg (not_lt.mpr harea)]
    rw [hlm]
    simp
  · exact buildNodeTree_significant_some

/-- C1 counterexample: `hdrC1` is a visible landmark whose area is far
above `minArea` and it occurs in the document below `bodyC1`, yet the
analysis of `bodyC1` returns no nodes at all: its insignificant wrapper div
had two landmark children and dropped both. -/
theorem C1_landmark_significance_counterexample :
    isElementVisible hdrC1 = true ∧ isLandmark hdrC1 = true ∧
    DEFAULT_CONFIG.minArea ≤ (getAbsoluteBoundingBox envStd hdrC1).width *
      (getAbsoluteBoundingBox envStd hdrC1).height ∧
    hdrC1 ∈ descendants bodyC1 ∧
    (analyzeDom envStd bodyC1 {}).nodes = [] := by
  refine ⟨by with_unfolding_all decide, by with_unfolding_all decide,
    by with_unfolding_all decide, ?_, ?_⟩
  · simp [descendants, preOrderList, preOrder, bodyC1, divC1, Elem.children]
  · have hch : bodyC1.children = [divC1] := rfl
    have hk : (divC1.kind == EKind.html) = true := by with_unfolding_all rfl
    have hva : envStd.innerWidth * envStd.innerHeight = (1280 : ℚ) * 800 := by
      with_unfolding_all rfl
    simp only [analyzeDom, mergeConfig_empty, buildChildList_eq, hch, hva,
      List.flatMap_cons, List.flatMap_nil, hk, if_true, divC1_build,
      Option.toList_none, List.append_nil]

/-- C1 witness: the amended claim applied at `hdrC1`, which is significant
and builds to a node on its own. -/
theorem C1_landmark_significance_witness :
    isSignificant envStd hdrC1 (1280 * 800) DEFAULT_CONFIG = true ∧
    ∃ n, buildNodeTree envStd hdrC1 0 (1280 * 800) DEFAULT_CONFIG false = some n :=
  ⟨C1_landmark_significance.1 envStd hdrC1 (1280 * 800) DEFAULT_CONFIG
     (by with_unfolding_all decide) (by with_unfolding_all decide)
     (by with_unfolding_all decide),
   C1_landmark_significance.2 envStd hdrC1 0 (1280 * 800) DEFAULT_CONFIG
     (by with_unfolding_all decide) (by with_unfolding_all decide)
     (C1_landmark_significance.1 envStd hdrC1 (1280 * 800) DEFAULT_CONFIG
       (by with_unfolding_all decide) (by with_unfolding_all decide)
       (by with_unfolding_all decide))⟩

/-! ## Branch lemmas for buildNodeTree -/

/-- When a significant visible element at a legal depth has a grid result,
the built node is its materialization over the grid-item nodes followed by
the landmark children. -/
theorem buildNodeTree_sig_grid (env : Env) (el : Elem) (d : Nat) (va : ℚ)
    (cfg : AnalyzerConfig) (items : List Elem)
    (hd : d ≤ cfg.maxDepth) (hvis : isElementVisible el = true)
    (hsig : isSignificant env el va cfg = true)
    (hgd : detectGridItems el = some items) :
    buildNodeTree env el d va cfg false =
      some (materializeNode env el d (getAbsoluteBoundingBox env el) false
        (buildGridList env items (d + 1) va cfg ++
         buildLandmarkList env el.children (d + 1) va cfg)) := by
  rw [buildNodeTree]
  rw [if_neg (fun h => absurd h.1 (Nat.not_lt.mpr hd))]
  rw [if_neg (by simp [hvis])]
  dsimp only
  split
  · rename_i its heq
    rw [if_pos ⟨by simp [hsig], rfl⟩] at heq
    rw [hgd] at heq
    obtain rfl := Option.some.inj heq
    rfl
  · rename_i heq
    rw [if_pos ⟨by simp [hsig], rfl⟩] at heq
    rw [hgd] at heq
    exact absurd heq (by simp)

/-- When a significant visible element at a legal depth has no grid
result, the built node is the collapse candidate if one exists, else the
materialization over the normally processed children. -/
theorem buildNodeTree_sig_nogrid (env : Env) (el : Elem) (d : Nat) (va : ℚ)
    (cfg : AnalyzerConfig)
    (hd : d ≤ cfg.maxDepth) (hvis : isElementVisible el = true)
    (hsig : isSignificant env el va cfg = true)
    (hgd : detectGridItems el = none) :
    buildNodeTree env el d va cfg false =
      some ((if (buildChildList env el.children (d + 1) va cfg).length = 1 then
               (buildChildList env el.children (d + 1) va cfg).head?.bind (fun child =>
                 if bboxesSimilar (getAbsoluteBoundingBox env el) child.bbox then
                   if isLandmark el = false ∧ child.isLandmark = true then some child
                   else if (generateLabel el = "Block" ∨ generateLabel el = "Section") ∧
                       child.label ≠ "Block" ∧ child.label ≠ "Section" then some child
                   else none
                 else none)
             else none).getD
        (materializeNode env el d (getAbsoluteBoundingBox env el) false
          (buildChildList env el.children (d + 1) va cfg))) := by
  rw [buildNodeTree]
  rw [if_neg (fun h => absurd h.1 (Nat.not_lt.mpr hd))]
  rw [if_neg (by simp [hvis])]
  dsimp only
  split
  · rename_i its heq
    rw [if_pos ⟨by simp [hsig], rfl⟩] at heq
    rw [hgd] at heq
    exact absurd heq (by simp)
  · rename_i heq
    rw [if_neg (by simp [hsig])]
    simp only [Bool.false_eq_true, if_false, Bool.false_or, hsig, eq_self_iff_true,
      if_true]

/-! ## Concrete evaluations for the C4 scenario -/

theorem cardC4a_hints : detectContentHints envStd cardC4a = [] := by
  simp only [detectContentHints, catchHints, detectContentHintsUnsafe, imageStep,
    largeSvgStep, buttonStep, svgIconStep, iconFontStep, textStep, queryAll,
    descendants, preOrderList, cardC4a, Elem.children]
  with_unfolding_all rfl

theorem cardC4b_hints : detectContentHints envStd cardC4b = [] := by
  simp only [detectContentHints, catchHints, detectContentHintsUnsafe, imageStep,
    largeSvgStep, buttonStep, svgIconStep, iconFontStep, textStep, queryAll,
    descendants, preOrderList, cardC4b, Elem.children]
  with_unfolding_all rfl

theorem cardC4c_hints : detectContentHints envStd cardC4c = [] := by
  simp only [detectContentHints, catchHints, detectContentHintsUnsafe, imageStep,
    largeSvgStep, buttonStep, svgIconStep, iconFontStep, textStep, queryAll,
    descendants, preOrderList, cardC4c, Elem.children]
  with_unfolding_all rfl

theorem cardC4d_hints : detectContentHints envStd cardC4d = [] := by
  simp only [detectContentHints, catchHints, detectContentHintsUnsafe, imageStep,
    largeSvgStep, buttonStep, svgIconStep, iconFontStep, textStep, queryAll,
    descendants, preOrderList, cardC4d, Elem.children]
  with_unfolding_all rfl

theorem cardC4a_build : buildNodeTree envStd cardC4a 1 (1280 * 800) DEFAULT_CONFIG true =
    some cardC4aNode := by
  have hlbl : inferGridItemLabel cardC4a = "Card" := by with_unfolding_all decide
  rw [buildNodeTree]
  simp only [buildChildList_eq, materializeNode, cardC4a_hints, hlbl]
  with_unfolding_all rfl

theorem cardC4b_build : buildNodeTree envStd cardC4b 1 (1280 * 800) DEFAULT_CONFIG true =
    some cardC4bNode := by
  have hlbl : inferGridItemLabel cardC4b = "Card" := by with_unfolding_all decide
  rw [buildNodeTree]
  simp only [buildChildList_eq, materializeNode, cardC4b_hints, hlbl]
  with_unfolding_all rfl

theorem cardC4c_build : buildNodeTree envStd cardC4c 1 (1280 * 800) DEFAULT_CONFIG true =
    some cardC4cNode := by
  have hlbl : inferGridItemLabel cardC4c = "Card" := by with_unfolding_all decide
  rw [buildNodeTree]
  simp only [buildChildList_eq, materializeNode, cardC4c_hints, hlbl]
  with_unfolding_all rfl

theorem cardC4d_build : buildNodeTree envStd cardC4d 1 (1280 * 800) DEFAULT_CONFIG true =
    some cardC4dNode := by
  have hlbl : inferGridItemLabel cardC4d = "Card" := by with_unfolding_all decide
  rw [buildNodeTree]
  simp only [buildChildList_eq, materializeNode, cardC4d_hints, hlbl]
  with_unfolding_all rfl

theorem secC4_gd : detectGridItems secC4 = some [cardC4a, cardC4b, cardC4c, cardC4d] := by
  with_unfolding_all rfl

theorem secC4bad_gd : detectGridItems secC4bad = none := by
  with_unfolding_all rfl

theorem secC4_descendants :
    descendants secC4 = [cardC4a, cardC4b, cardC4c, cardC4d, tinyC4] := by
  simp [descendants, preOrderList, preOrder, secC4, cardC4a, cardC4b, cardC4c,
    cardC4d, tinyC4, Elem.children]

theorem secC4_hints : detectContentHints envStd secC4 = [] := by
  have h1 : imageStep envStd secC4 (HintState.mk [] 0 0 0 0) = HintState.mk [] 0 0 0 0 := by
    simp only [imageStep, queryAll, secC4_descendants]; with_unfolding_all rfl
  have h2 : largeSvgStep envStd secC4 (HintState.mk [] 0 0 0 0) = HintState.mk [] 0 0 0 0 := by
    simp only [largeSvgStep, queryAll, secC4_descendants]; with_unfolding_all rfl
  have h3 : buttonStep envStd secC4 (HintState.mk [] 0 0 0 0) = HintState.mk [] 0 0 0 0 := by
    simp only [buttonStep, queryAll, secC4_descendants]; with_unfolding_all rfl
  have h4 : svgIconStep envStd secC4 (HintState.mk [] 0 0 0 0) = HintState.mk [] 0 0 0 0 := by
    simp only [svgIconStep, queryAll, secC4_descendants]; with_unfolding_all rfl
  have h5 : iconFontStep envStd secC4 (HintState.mk [] 0 0 0 0) = HintState.mk [] 0 0 0 0 := by
    simp only [iconFontStep, queryAll, secC4_descendants]; with_unfolding_all rfl
  have h6 : textStep envStd secC4 (HintState.mk [] 0 0 0 0) = HintState.mk [] 0 0 0 0 := by
    simp only [textStep, queryAll, secC4_descendants]; with_unfolding_all rfl
  rw [detectContentHints, detectContentHintsUnsafe, h1, h2, h3, h4, h5, h6]
  rfl

theorem secC4_inf : inferLabelFromContent secC4 = none := by
  rw [inferLabelFromContent]
  have hq : queryFirst secC4
      (fun d => d.tagName == "h1" || d.tagName == "h2" || d.tagName == "h3") = none := by
    rw [queryFirst, secC4_descendants]
    with_unfolding_all rfl
  rw [hq]

theorem secC4_label : generateLabel secC4 = "Section" := by
  rw [generateLabel]
  have hcls : getClassLabel secC4 = none := by with_unfolding_all rfl
  rw [hcls]
  dsimp only
  rw [if_neg (by with_unfolding_all decide)]
  rw [postIdLabel]
  simp only [secC4_inf]
  with_unfolding_all rfl

theorem secC4_build : buildNodeTree envStd secC4 0 (1280 * 800) DEFAULT_CONFIG false =
    some secC4Node := by
  have h := buildNodeTree_sig_grid envStd secC4 0 (1280 * 800) DEFAULT_CONFIG
    [cardC4a, cardC4b, cardC4c, cardC4d] (by with_unfolding_all decide)
    (by with_unfolding_all decide) (by with_unfolding_all decide) secC4_gd
  rw [h]
  have hch : secC4.children = [cardC4a, cardC4b, cardC4c, cardC4d, tinyC4] := rfl
  have hla : isLandmark cardC4a = false := by with_unfolding_all decide
  have hlb : isLandmark cardC4b = false := by with_unfolding_all decide
  have hlc : isLandmark cardC4c = false := by with_unfolding_all decide
  have hld : isLandmark cardC4d = false := by with_unfolding_all decide
  have hlt : isLandmark tinyC4 = false := by with_unfolding_all decide
  have hsem : getSemanticType secC4 "Section" = SemanticType.content := by
    with_unfolding_all decide
  simp only [Nat.zero_add, buildGridList_eq, List.flatMap_cons, List.flatMap_nil, cardC4a_build,
    cardC4b_build, cardC4c_build, cardC4d_build, Option.toList_some,
    buildLandmarkList_eq, hch, hla, hlb, hlc, hld, hlt, Bool.and_false,
    Bool.false_eq_true, if_false, List.append_nil, materializeNode, secC4_hints,
    secC4_label, hsem]
  with_unfolding_all rfl

/-- An insignificant visible element bubbles up its lone surviving child
node, or disappears. -/
theorem buildNodeTree_insig (env : Env) (el : Elem) (d : Nat) (va : ℚ)
    (cfg : AnalyzerConfig)
    (hd : d ≤ cfg.maxDepth) (hvis : isElementVisible el = true)
    (hsig : isSignificant env el va cfg = false) :
    buildNodeTree env el d va cfg false =
      (if (buildChildList env el.children d va cfg).length = 1 then
         (buildChildList env el.children d va cfg).head? else none) := by
  rw [buildNodeTree]
  rw [if_neg (fun h => absurd h.1 (Nat.not_lt.mpr hd))]
  rw [if_neg (by simp [hvis])]
  dsimp only
  split
  · rename_i its heq
    rw [if_neg (by simp [hsig])] at heq
    exact absurd heq (by simp)
  · rename_i heq
    rw [if_pos (by simp [hsig])]
    simp only [Bool.false_eq_true, if_false, Bool.false_or, hsig]

theorem cardC4a_buildN : buildNodeTree envStd cardC4a 1 (1280 * 800) DEFAULT_CONFIG false =
    none := by
  rw [buildNodeTree_insig envStd cardC4a 1 (1280 * 800) DEFAULT_CONFIG
    (by with_unfolding_all decide) (by with_unfolding_all decide)
    (by with_unfolding_all decide)]
  simp only [buildChildList_eq]
  with_unfolding_all rfl

theorem cardC4b_buildN : buildNodeTree envStd cardC4b 1 (1280 * 800) DEFAULT_CONFIG false =
    none := by
  rw [buildNodeTree_insig envStd cardC4b 1 (1280 * 800) DEFAULT_CONFIG
    (by with_unfolding_all decide) (by with_unfolding_all decide)
    (by with_unfolding_all decide)]
  simp only [buildChildList_eq]
  with_unfolding_all rfl

theorem cardC4c_buildN : buildNodeTree envStd cardC4c 1 (1280 * 800) DEFAULT_CONFIG false =
    none := by
  rw [buildNodeTree_insig envStd cardC4c 1 (1280 * 800) DEFAULT_CONFIG
    (by with_unfolding_all decide) (by with_unfolding_all decide)
    (by with_unfolding_all decide)]
  simp only [buildChildList_eq]
  with_unfolding_all rfl

theorem cardC4d_buildN : buildNodeTree envStd cardC4d 1 (1280 * 800) DEFAULT_CONFIG false =
    none := by
  rw [buildNodeTree_insig envStd cardC4d 1 (1280 * 800) DEFAULT_CONFIG
    (by with_unfolding_all decide) (by with_unfolding_all decide)
    (by with_unfolding_all decide)]
  simp only [buildChildList_eq]
  with_unfolding_all rfl

theorem wideC4_buildN : buildNodeTree envStd wideC4 1 (1280 * 800) DEFAULT_CONFIG false =
    none := by
  rw [buildNodeTree_insig envStd wideC4 1 (1280 * 800) DEFAULT_CONFIG
    (by with_unfolding_all decide) (by with_unfolding_all decide)
    (by with_unfolding_all decide)]
  simp only [buildChildList_eq]
  with_unfolding_all rfl

theorem secC4bad_descendants :
    descendants secC4bad = [cardC4a, cardC4b, cardC4c, cardC4d, wideC4] := by
  simp [descendants, preOrderList, preOrder, secC4bad, cardC4a, cardC4b, cardC4c,
    cardC4d, wideC4, Elem.children]

theorem secC4bad_hints : detectContentHints envStd secC4bad = [] := by
  have h1 : imageStep envStd secC4bad (HintState.mk [] 0 0 0 0) = HintState.mk [] 0 0 0 0 := by
    simp only [imageStep, queryAll, secC4bad_descendants]; with_unfolding_all rfl
  have h2 : largeSvgStep envStd secC4bad (HintState.mk [] 0 0 0 0) = HintState.mk [] 0 0 0 0 := by
    simp only [largeSvgStep, queryAll, secC4bad_descendants]; with_unfolding_all rfl
  have h3 : buttonStep envStd secC4bad (HintState.mk [] 0 0 0 0) = HintState.mk [] 0 0 0 0 := by
    simp only [buttonStep, queryAll, secC4bad_descendants]; with_unfolding_all rfl
  have h4 : svgIconStep envStd secC4bad (HintState.mk [] 0 0 0 0) = HintState.mk [] 0 0 0 0 := by
    simp only [svgIconStep, queryAll, secC4bad_descendants]; with_unfolding_all rfl
  have h5 : iconFontStep envStd secC4bad (HintState.mk [] 0 0 0 0) = HintState.mk [] 0 0 0 0 := by
    simp only [iconFontStep, queryAll, secC4bad_descendants]; with_unfolding_all rfl
  have h6 : textStep envStd secC4bad (HintState.mk [] 0 0 0 0) = HintState.mk [] 0 0 0 0 := by
    simp only [textStep, queryAll, secC4bad_descendants]; with_unfolding_all rfl
  rw [detectContentHints, detectContentHintsUnsafe, h1, h2, h3, h4, h5, h6]
  rfl

theorem secC4bad_inf : inferLabelFromContent secC4bad = none := by
  rw [inferLabelFromContent]
  have hq : queryFirst secC4bad
      (fun d => d.tagName == "h1" || d.tagName == "h2" || d.tagName == "h3") = none := by
    rw [queryFirst, secC4bad_descendants]
    with_unfolding_all rfl
  rw [hq]

theorem secC4bad_label : generateLabel secC4bad = "Section" := by
  rw [generateLabel]
  have hcls : getClassLabel secC4bad = none := by with_unfolding_all rfl
  rw [hcls]
  dsimp only
  rw [if_neg (by with_unfolding_all decide)]
  rw [postIdLabel]
  simp only [secC4bad_inf]
  with_unfolding_all rfl

theorem secC4bad_build : buildNodeTree envStd secC4bad 0 (1280 * 800) DEFAULT_CONFIG false =
    some secC4badNode := by
  rw [buildNodeTree_sig_nogrid envStd secC4bad 0 (1280 * 800) DEFAULT_CONFIG
    (by with_unfolding_all decide) (by with_unfolding_all decide)
    (by with_unfolding_all decide) secC4bad_gd]
  have hch : secC4bad.children = [cardC4a, cardC4b, cardC4c, cardC4d, wideC4] := rfl
  have hk1 : (cardC4a.kind == EKind.html) = true := by with_unfolding_all rfl
  have hk2 : (cardC4b.kind == EKind.html) = true := by with_unfolding_all rfl
  have hk3 : (cardC4c.kind == EKind.html) = true := by with_unfolding_all rfl
  have hk4 : (cardC4d.kind == EKind.html) = true := by with_unfolding_all rfl
  have hk5 : (wideC4.kind == EKind.html) = true := by with_unfolding_all rfl
  have hsem : getSemanticType secC4bad "Section" = SemanticType.content := by
    with_unfolding_all decide
  simp only [Nat.zero_add, buildChildList_eq, hch, List.flatMap_cons, List.flatMap_nil,
    hk1, hk2, hk3, hk4, hk5, if_true, cardC4a_buildN, cardC4b_buildN, cardC4c_buildN,
    cardC4d_buildN, wideC4_buildN, Option.toList_none, List.append_nil,
    List.length_nil, materializeNode, secC4bad_hints, secC4bad_label, hsem]
  with_unfolding_all rfl


/-! ## Claim C4 -/

/-- C4 (amended): for the row-flex section with four approximately 280 by
200 cards and a fifth 100-wide sibling of area 1000 (at most the
decorative-noise bound, hence dropped before the similarity test), grid
detection returns exactly the four cards, and the built node carries four
card children at depth 1 in document order. The original claim let the
fifth sibling be any width-100 box outside the 30 percent tolerance; that
is refuted by `C4_grid_four_cards_counterexample`, where a 100 by 200 fifth
sibling (area above the noise bound) makes the similarity test fail and
kills grid detection entirely. -/
theorem C4_grid_four_cards :
    detectGridItems secC4 = some [cardC4a, cardC4b, cardC4c, cardC4d] ∧
    buildNodeTree envStd secC4 0 (1280 * 800) DEFAULT_CONFIG false = some secC4Node ∧
    secC4Node.children.map WireframeNode.semanticType =
      [.card, .card, .card, .card] ∧
    secC4Node.children.map WireframeNode.depth = [1, 1, 1, 1] ∧
    secC4Node.children.map WireframeNode.srcPos = [2, 3, 4, 5] :=
  ⟨secC4_gd, secC4_build, rfl, rfl, rfl⟩

/-- C4 counterexample: replacing the fifth sibling by a 100 by 200 box
(outside the 30 percent width tolerance but above the decorative-noise
area bound) does not merely exclude it: grid detection fails altogether
and the section ends up with no children at all. -/
theorem C4_grid_four_cards_counterexample :
    detectGridItems secC4bad = none ∧
    buildNodeTree envStd secC4bad 0 (1280 * 800) DEFAULT_CONFIG false =
      some secC4badNode ∧
    secC4badNode.children = [] :=
  ⟨secC4bad_gd, secC4bad_build, rfl⟩

/-! ## Concrete evaluations for the C5 scenario -/

theorem navC5_descendants : descendants navC5 = [] := by
  simp [descendants, preOrderList, navC5, Elem.children]

theorem navC5_hints : detectContentHints envStd navC5 = [] := by
  simp only [detectContentHints, catchHints, detectContentHintsUnsafe, imageStep,
    largeSvgStep, buttonStep, svgIconStep, iconFontStep, textStep, queryAll,
    navC5_descendants]
  with_unfolding_all rfl

theorem navC5_build : buildNodeTree envStd navC5 1 (1280 * 800) DEFAULT_CONFIG false =
    some navC5Node := by
  have hlbl : generateLabel navC5 = "Navigation" := by with_unfolding_all decide
  have hsem : getSemanticType navC5 "Navigation" = SemanticType.navigation := by
    with_unfolding_all decide
  rw [buildNodeTree]
  simp only [buildChildList_eq, materializeNode, navC5_hints, hlbl, hsem]
  with_unfolding_all rfl

theorem divC5_descendants : descendants divC5 = [navC5] := by
  simp [descendants, preOrderList, preOrder, divC5, navC5, Elem.children]

theorem divC5_hints : detectContentHints envStd divC5 = [] := by
  have h1 : imageStep envStd divC5 (HintState.mk [] 0 0 0 0) = HintState.mk [] 0 0 0 0 := by
    simp only [imageStep, queryAll, divC5_descendants]; with_unfolding_all rfl
  have h2 : largeSvgStep envStd divC5 (HintState.mk [] 0 0 0 0) = HintState.mk [] 0 0 0 0 := by
    simp only [largeSvgStep, queryAll, divC5_descendants]; with_unfolding_all rfl
  have h3 : buttonStep envStd divC5 (HintState.mk [] 0 0 0 0) = HintState.mk [] 0 0 0 0 := by
    simp only [buttonStep, queryAll, divC5_descendants]; with_unfolding_all rfl
  have h4 : svgIconStep envStd divC5 (HintState.mk [] 0 0 0 0) = HintState.mk [] 0 0 0 0 := by
    simp only [svgIconStep, queryAll, divC5_descendants]; with_unfolding_all rfl
  have h5 : iconFontStep envStd divC5 (HintState.mk [] 0 0 0 0) = HintState.mk [] 0 0 0 0 := by
    simp only [iconFontStep, queryAll, divC5_descendants]; with_unfolding_all rfl
  have h6 : textStep envStd divC5 (HintState.mk [] 0 0 0 0) = HintState.mk [] 0 0 0 0 := by
    simp only [textStep, queryAll, divC5_descendants]; with_unfolding_all rfl
  rw [detectContentHints, detectContentHintsUnsafe, h1, h2, h3, h4, h5, h6]
  rfl

theorem divC5_inf : inferLabelFromContent divC5 = none := by
  rw [inferLabelFromContent]
  have hq : queryFirst divC5
      (fun d => d.tagName == "h1" || d.tagName == "h2" || d.tagName == "h3") = none := by
    rw [queryFirst, divC5_descendants]
    with_unfolding_all rfl
  rw [hq]

theorem divC5_label : generateLabel divC5 = "Block" := by
  rw [generateLabel]
  have hcls : getClassLabel divC5 = none := by with_unfolding_all rfl
  rw [hcls]
  dsimp only
  rw [if_neg (by with_unfolding_all decide)]
  rw [postIdLabel]
  simp only [divC5_inf]
  with_unfolding_all rfl

theorem divC5_build : buildNodeTree envStd divC5 0 (1280 * 800) DEFAULT_CONFIG false =
    some divC5Node := by
  rw [buildNodeTree_sig_nogrid envStd divC5 0 (1280 * 800) DEFAULT_CONFIG
    (by with_unfolding_all decide) (by with_unfolding_all decide)
    (by with_unfolding_all decide) (by with_unfolding_all rfl)]
  have hch : divC5.children = [navC5] := rfl
  have hk : (navC5.kind == EKind.html) = true := by with_unfolding_all rfl
  have hbb : bboxesSimilar (getAbsoluteBoundingBox envStd divC5) navC5Node.bbox = false := by
    with_unfolding_all decide
  have hsem : getSemanticType divC5 "Block" = SemanticType.content := by
    with_unfolding_all decide
  simp only [Nat.zero_add, buildChildList_eq, hch, List.flatMap_cons, List.flatMap_nil,
    hk, if_true, navC5_build, Option.toList_some, List.append_nil, List.length_cons,
    List.length_nil, List.head?_cons, Option.some_bind, hbb, materializeNode,
    divC5_hints, divC5_label, hsem]
  with_unfolding_all rfl

theorem divC5s_descendants : descendants divC5s = [] := by
  simp [descendants, preOrderList, divC5s, Elem.children]

theorem divC5s_hints : detectContentHints envStd divC5s = [] := by
  simp only [detectContentHints, catchHints, detectContentHintsUnsafe, imageStep,
    largeSvgStep, buttonStep, svgIconStep, iconFontStep, textStep, queryAll,
    divC5s_descendants]
  with_unfolding_all rfl

theorem divC5s_inf : inferLabelFromContent divC5s = none := by
  rw [inferLabelFromContent]
  have hq : queryFirst divC5s
      (fun d => d.tagName == "h1" || d.tagName == "h2" || d.tagName == "h3") = none := by
    rw [queryFirst, divC5s_descendants]
    with_unfolding_all rfl
  rw [hq]

theorem divC5s_label : generateLabel divC5s = "Block" := by
  rw [generateLabel]
  have hcls : getClassLabel divC5s = none := by with_unfolding_all rfl
  rw [hcls]
  dsimp only
  rw [if_neg (by with_unfolding_all decide)]
  rw [postIdLabel]
  simp only [divC5s_inf]
  with_unfolding_all rfl

theorem divC5s_build : buildNodeTree envStd divC5s 1 (1280 * 800) DEFAULT_CONFIG false =
    some divC5sNode := by
  have hsem : getSemanticType divC5s "Block" = SemanticType.content := by
    with_unfolding_all decide
  rw [buildNodeTree]
  simp only [buildChildList_eq, materializeNode, divC5s_hints, divC5s_label, hsem]
  with_unfolding_all rfl

theorem secC5_descendants : descendants secC5 = [divC5s] := by
  simp [descendants, preOrderList, preOrder, secC5, divC5s, Elem.children]

theorem secC5_hints : detectContentHints envStd secC5 = [] := by
  have h1 : imageStep envStd secC5 (HintState.mk [] 0 0 0 0) = HintState.mk [] 0 0 0 0 := by
    simp only [imageStep, queryAll, secC5_descendants]; with_unfolding_all rfl
  have h2 : largeSvgStep envStd secC5 (HintState.mk [] 0 0 0 0) = HintState.mk [] 0 0 0 0 := by
    simp only [largeSvgStep, queryAll, secC5_descendants]; with_unfolding_all rfl
  have h3 : buttonStep envStd secC5 (HintState.mk [] 0 0 0 0) = HintState.mk [] 0 0 0 0 := by
    simp only [buttonStep, queryAll, secC5_descendants]; with_unfolding_all rfl
  have h4 : svgIconStep envStd secC5 (HintState.mk [] 0 0 0 0) = HintState.mk [] 0 0 0 0 := by
    simp only [svgIconStep, queryAll, secC5_descendants]; with_unfolding_all rfl
  have h5 : iconFontStep envStd secC5 (HintState.mk [] 0 0 0 0) = HintState.mk [] 0 0 0 0 := by
    simp only [iconFontStep, queryAll, secC5_descendants]; with_unfolding_all rfl
  have h6 : textStep envStd secC5 (HintState.mk [] 0 0 0 0) = HintState.mk [] 0 0 0 0 := by
    simp only [textStep, queryAll, secC5_descendants]; with_unfolding_all rfl
  rw [detectContentHints, detectContentHintsUnsafe, h1, h2, h3, h4, h5, h6]
  rfl

theorem secC5_inf : inferLabelFromContent secC5 = none := by
  rw [inferLabelFromContent]
  have hq : queryFirst secC5
      (fun d => d.tagName == "h1" || d.tagName == "h2" || d.tagName == "h3") = none := by
    rw [queryFirst, secC5_descendants]
    with_unfolding_all rfl
  rw [hq]

theorem secC5_label : generateLabel secC5 = "Section" := by
  rw [generateLabel]
  have hcls : getClassLabel secC5 = none := by with_unfolding_all rfl
  rw [hcls]
  dsimp only
  rw [if_neg (by with_unfolding_all decide)]
  rw [postIdLabel]
  simp only [secC5_inf]
  with_unfolding_all rfl

theorem secC5_build : buildNodeTree envStd secC5 0 (1280 * 800) DEFAULT_CONFIG false =
    some secC5Node := by
  rw [buildNodeTree_sig_nogrid envStd secC5 0 (1280 * 800) DEFAULT_CONFIG
    (by with_unfolding_all decide) (by with_unfolding_all decide)
    (by with_unfolding_all decide) (by with_unfolding_all rfl)]
  have hch : secC5.children = [divC5s] := rfl
  have hk : (divC5s.kind == EKind.html) = true := by with_unfolding_all rfl
  have hbb : bboxesSimilar (getAbsoluteBoundingBox envStd secC5) divC5sNode.bbox = true := by
    with_unfolding_all decide
  have hlm : isLandmark secC5 = true := by with_unfolding_all decide
  have hsem : getSemanticType secC5 "Section" = SemanticType.content := by
    with_unfolding_all decide
  simp only [Nat.zero_add, buildChildList_eq, hch, List.flatMap_cons, List.flatMap_nil,
    hk, if_true, divC5s_build, Option.toList_some, List.append_nil, List.length_cons,
    List.length_nil, List.head?_cons, Option.some_bind, hbb, hlm, materializeNode,
    secC5_hints, secC5_label, hsem]
  with_unfolding_all rfl

/-! ## Claim C5 -/

/-- C5 (amended): wrapper collapse in direction (a): for every significant
visible element at a legal depth with no grid result, exactly one resulting
child node, a similar child box, where the element is a non-landmark and
the child a landmark, the build returns the child in place of the element;
the similarity test is strict — the child's area must exceed 85 percent of
the element's (at exactly 85 percent nothing collapses, refuting the
claim's at-least-85 reading, see the counterexample); and conversely the
landmark section `secC5` with one Block-labeled non-landmark div child
covering 97.5 percent stays the returned node. -/
theorem C5_wrapper_collapse :
    (∀ env el d va cfg c, d ≤ cfg.maxDepth → isElementVisible el = true →
       isSignificant env el va cfg = true → detectGridItems el = none →
       buildChildList env el.children (d + 1) va cfg = [c] →
       bboxesSimilar (getAbsoluteBoundingBox env el) c.bbox = true →
       isLandmark el = false → c.isLandmark = true →
       buildNodeTree env el d va cfg false = some c) ∧
    (∀ a b : BoundingBox, bboxesSimilar a b = true ↔
       a.width * a.height * 0.85 < b.width * b.height) ∧
    (buildNodeTree envStd secC5 0 (1280 * 800) DEFAULT_CONFIG false = some secC5Node ∧
     secC5Node.tagName = "section" ∧ secC5Node.children = [divC5sNode]) := by
  refine ⟨?_, ?_, secC5_build, rfl, rfl⟩
  · intro env el d va cfg c hd hvis hsig hgd hbcl hbb hlm hclm
    rw [buildNodeTree_sig_nogrid env el d va cfg hd hvis hsig hgd]
    simp only [hbcl, List.length_cons, List.length_nil, Nat.zero_add,
      List.head?_cons, Option.some_bind, hbb, hlm, hclm, eq_self_iff_true,
      and_self, if_true, Option.getD_some]
  · intro a b
    simp [bboxesSimilar]

/-- C5 counterexample: the landmark child of `divC5` covers exactly 85
percent of it; the code's strict test does not collapse, so the wrapper div
is returned with the nav as a child rather than being replaced by it. -/
theorem C5_wrapper_collapse_counterexample :
    (getAbsoluteBoundingBox envStd navC5).width * (getAbsoluteBoundingBox envStd navC5).height =
      (getAbsoluteBoundingBox envStd divC5).width * (getAbsoluteBoundingBox envStd divC5).height
        * 0.85 ∧
    isLandmark divC5 = false ∧ isLandmark navC5 = true ∧
    isSignificant envStd divC5 (1280 * 800) DEFAULT_CONFIG = true ∧
    buildNodeTree envStd divC5 0 (1280 * 800) DEFAULT_CONFIG false = some divC5Node ∧
    divC5Node.tagName = "div" ∧ divC5Node.children = [navC5Node] := by
  refine ⟨?_, by with_unfolding_all decide,
    by with_unfolding_all decide, by with_unfolding_all decide, divC5_build, rfl, rfl⟩
  have h1 : getAbsoluteBoundingBox envStd navC5 = BoundingBox.mk 0 0 340 300 := by
    with_unfolding_all decide
  have h2 : getAbsoluteBoundingBox envStd divC5 = BoundingBox.mk 0 0 400 300 := by
    with_unfolding_all decide
  rw [h1, h2]
  norm_num

/-- C5 witness: the collapse rule applied at `divC2`, whose landmark child
covers 98.75 percent; the build returns the child in place of the div. -/
theorem C5_wrapper_collapse_witness :
    buildChildList envStd divC2.children 2 (1280 * 800) DEFAULT_CONFIG = [navC2Node] ∧
    buildNodeTree envStd divC2 1 (1280 * 800) DEFAULT_CONFIG false = some navC2Node := by
  have hbcl : buildChildList envStd divC2.children 2 (1280 * 800) DEFAULT_CONFIG =
      [navC2Node] := by
    have hch : divC2.children = [navC2] := rfl
    have hk : (navC2.kind == EKind.html) = true := by with_unfolding_all rfl
    simp only [buildChildList_eq, hch, List.flatMap_cons, List.flatMap_nil, hk,
      if_true, navC2_build, Option.toList_some, List.append_nil]
  exact ⟨hbcl,
    C5_wrapper_collapse.1 envStd divC2 1 (1280 * 800) DEFAULT_CONFIG navC2Node
      (by with_unfolding_all decide) (by with_unfolding_all decide)
      (by with_unfolding_all decide) (by with_unfolding_all rfl) hbcl
      (by with_unfolding_all decide) (by with_unfolding_all decide)
      (by with_unfolding_all decide)⟩

/-! ## Concrete evaluations for the C9 scenario -/

theorem aC9_build : buildNodeTree envStd aC9 2 (1280 * 800) DEFAULT_CONFIG false = none := by
  rw [buildNodeTree]
  simp only [buildChildList_eq]
  with_unfolding_all rfl

theorem navC9_descendants : descendants navC9 = [aC9] := by
  simp [descendants, preOrderList, preOrder, Elem.children, navC9, aC9]

theorem navC9_hints : detectContentHints envStd navC9 =
    [⟨.button, ⟨1100, 20, 120, 40⟩, some "Contact"⟩] := by
  simp only [detectContentHints, catchHints, detectContentHintsUnsafe, imageStep,
    largeSvgStep, buttonStep, svgIconStep, iconFontStep, textStep, queryAll,
    navC9_descendants]
  with_unfolding_all rfl

theorem navC9_build : buildNodeTree envStd navC9 1 (1280 * 800) DEFAULT_CONFIG false =
    some navC9Node := by
  have hsigN : isSignificant envStd navC9 (1280 * 800) DEFAULT_CONFIG = true := by
    with_unfolding_all decide
  have hgridN : detectGridItems navC9 = none := by with_unfolding_all rfl
  have hchil : navC9.children = [aC9] := rfl
  rw [buildNodeTree]
  simp only [buildChildList_eq, hsigN, hgridN, hchil, Bool.false_or,
    List.flatMap_cons, List.flatMap_nil, aC9_build]
  simp only [materializeNode, navC9_hints]
  with_unfolding_all rfl

theorem headerC9_descendants : descendants headerC9 = [navC9, aC9] := by
  simp [descendants, preOrderList, preOrder, Elem.children, headerC9, navC9, aC9]

theorem headerC9_hints : detectContentHints envStd headerC9 =
    [⟨.button, ⟨1100, 20, 120, 40⟩, some "Contact"⟩] := by
  have h1 : imageStep envStd headerC9 (HintState.mk [] 0 0 0 0) = HintState.mk [] 0 0 0 0 := by
    simp only [imageStep, queryAll, headerC9_descendants]; with_unfolding_all rfl
  have h2 : largeSvgStep envStd headerC9 (HintState.mk [] 0 0 0 0) = HintState.mk [] 0 0 0 0 := by
    simp only [largeSvgStep, queryAll, headerC9_descendants]; with_unfolding_all rfl
  have h3 : buttonStep envStd headerC9 (HintState.mk [] 0 0 0 0) =
      HintState.mk [⟨.button, ⟨1100, 20, 120, 40⟩, some "Contact"⟩] 0 1 0 0 := by
    simp only [buttonStep, queryAll, headerC9_descendants]; with_unfolding_all rfl
  have h4 : svgIconStep envStd headerC9
        (HintState.mk [⟨.button, ⟨1100, 20, 120, 40⟩, some "Contact"⟩] 0 1 0 0) =
      HintState.mk [⟨.button, ⟨1100, 20, 120, 40⟩, some "Contact"⟩] 0 1 0 0 := by
    simp only [svgIconStep, queryAll, headerC9_descendants]; with_unfolding_all rfl
  have h5 : iconFontStep envStd headerC9
        (HintState.mk [⟨.button, ⟨1100, 20, 120, 40⟩, some "Contact"⟩] 0 1 0 0) =
      HintState.mk [⟨.button, ⟨1100, 20, 120, 40⟩, some "Contact"⟩] 0 1 0 0 := by
    simp only [iconFontStep, queryAll, headerC9_descendants]; with_unfolding_all rfl
  have h6 : textStep envStd headerC9
        (HintState.mk [⟨.button, ⟨1100, 20, 120, 40⟩, some "Contact"⟩] 0 1 0 0) =
      HintState.mk [⟨.button, ⟨1100, 20, 120, 40⟩, some "Contact"⟩] 0 1 0 0 := by
    simp only [textStep, queryAll, headerC9_descendants]; with_unfolding_all rfl
  rw [detectContentHints, detectContentHintsUnsafe, h1, h2, h3, h4, h5, h6]
  rfl

theorem headerC9_label : generateLabel headerC9 = "Header" := by
  with_unfolding_all decide

theorem headerC9_build : buildNodeTree envStd headerC9 0 (1280 * 800) DEFAULT_CONFIG false =
    some headerC9Node := by
  rw [buildNodeTree_sig_nogrid envStd headerC9 0 (1280 * 800) DEFAULT_CONFIG
    (by with_unfolding_all decide) (by with_unfolding_all decide)
    (by with_unfolding_all decide) (by with_unfolding_all rfl)]
  have hch : headerC9.children = [navC9] := rfl
  have hk : (navC9.kind == EKind.html) = true := by with_unfolding_all rfl
  have hbb : bboxesSimilar (getAbsoluteBoundingBox envStd headerC9) navC9Node.bbox = true := by
    with_unfolding_all decide
  have hlm : isLandmark headerC9 = true := by with_unfolding_all decide
  have hsem : getSemanticType headerC9 "Header" = SemanticType.header := by
    with_unfolding_all decide
  simp only [Nat.zero_add, buildChildList_eq, hch, List.flatMap_cons, List.flatMap_nil,
    hk, if_true, navC9_build, Option.toList_some, List.append_nil, List.length_cons,
    List.length_nil, List.head?_cons, Option.some_bind, hbb, hlm, materializeNode,
    headerC9_hints, headerC9_label, hsem]
  with_unfolding_all rfl

/-! ## Claim C9 -/

/-- C9: the concrete end-to-end scenario: with a 1280 by 800 viewport, the
body containing a header (id header) over a nav (role navigation) over one
Contact anchor styled as a button yields exactly one root node — the header
labeled Header with semantic type header — whose single child is the nav
labeled Navigation with exactly one button content hint for the Contact
anchor at (1100, 20, 120, 40). -/
theorem C9_end_to_end :
    (analyzeDom envStd bodyC9 {}).nodes = [headerC9Node] ∧
    headerC9Node.tagName = "header" ∧ headerC9Node.label = "Header" ∧
    headerC9Node.semanticType = .header ∧ headerC9Node.isLandmark = true ∧
    headerC9Node.children = [navC9Node] ∧
    navC9Node.tagName = "nav" ∧ navC9Node.label = "Navigation" ∧
    navC9Node.semanticType = .navigation ∧ navC9Node.isLandmark = true ∧
    navC9Node.contentHints = some [⟨.button, ⟨1100, 20, 120, 40⟩, some "Contact"⟩] := by
  refine ⟨?_, rfl, rfl, rfl, rfl, rfl, rfl, rfl, rfl, rfl, rfl⟩
  have hch : bodyC9.children = [headerC9] := rfl
  have hk : (headerC9.kind == EKind.html) = true := by with_unfolding_all rfl
  have hva : envStd.innerWidth * envStd.innerHeight = (1280 : ℚ) * 800 := by
    with_unfolding_all rfl
  simp only [analyzeDom, mergeConfig_empty, buildChildList_eq, hch, hva,
    List.flatMap_cons, List.flatMap_nil, hk, if_true, headerC9_build,
    Option.toList_some, List.append_nil]

/-! ## Hint-extraction invariants (C6) -/

theorem countType_append_single (u : ContentType) (xs : List ContentHint)
    (h : ContentHint) :
    countType u (xs ++ [h]) = countType u xs + (if h.type == u then 1 else 0) := by
  simp only [countType, List.filter_append, List.length_append]
  congr 1
  split
  · rename_i hb
    simp [List.filter, hb]
  · rename_i hb
    simp [List.filter, Bool.of_not_eq_true hb]

theorem addHint_ok (st : HintState) (t : ContentType) (bbox : BoundingBox)
    (lbl : Option String) (h : HintStateOK st) :
    HintStateOK (addHint st t bbox lbl) := by
  rw [addHint]
  dsimp only
  split
  · exact h
  · rename_i hsz
    split
    · exact h
    · rename_i hcap
      refine ⟨?_, ?_, ?_⟩
      · intro u
        rw [show ({ st.inc t with hints := st.hints ++ [ContentHint.mk t bbox lbl] } :
            HintState).hints = st.hints ++ [ContentHint.mk t bbox lbl] from rfl]
        rw [countType_append_single]
        have h1 := h.1 u
        have h2 := h.1 t
        cases t <;> cases u <;>
          simp_all [HintState.inc, HintState.count, ContentHint.type]
      · intro u
        rw [show ({ st.inc t with hints := st.hints ++ [ContentHint.mk t bbox lbl] } :
            HintState).hints = st.hints ++ [ContentHint.mk t bbox lbl] from rfl]
        rw [countType_append_single]
        by_cases he : (ContentHint.mk t bbox lbl).type == u
        · have : u = t := by
            cases t <;> cases u <;> simp_all [ContentHint.type]
          subst this
          rw [if_pos he]
          have := h.1 u
          omega
        · rw [if_neg he]
          simpa using h.2.1 u
      · intro x hx
        rw [show ({ st.inc t with hints := st.hints ++ [ContentHint.mk t bbox lbl] } :
            HintState).hints = st.hints ++ [ContentHint.mk t bbox lbl] from rfl] at hx
        rcases List.mem_append.mp hx with hx | hx
        · exact h.2.2 x hx
        · rcases List.mem_singleton.mp hx with rfl
          rw [hintMeetsMin, decide_eq_true_iff]
          push_neg at hsz
          exact ⟨hsz.1, hsz.2⟩

theorem foldl_ok {α : Type} (P : HintState → Prop) (f : HintState → α → HintState)
    (hf : ∀ st a, P st → P (f st a)) :
    ∀ (l : List α) (st : HintState), P st → P (l.foldl f st) := by
  intro l
  induction l with
  | nil => intro st h; exact h
  | cons a l ih => intro st h; exact ih (f st a) (hf st a h)

theorem imageStep_ok (env : Env) (el : Elem) (st : HintState)
    (h : HintStateOK st) : HintStateOK (imageStep env el st) := by
  rw [imageStep]
  refine foldl_ok _ _ ?_ _ _ h
  intro st a hst
  dsimp only
  split
  · exact addHint_ok _ _ _ _ hst
  · exact hst

theorem largeSvgStep_ok (env : Env) (el : Elem) (st : HintState)
    (h : HintStateOK st) : HintStateOK (largeSvgStep env el st) := by
  rw [largeSvgStep]
  refine foldl_ok _ _ ?_ _ _ h
  intro st a hst
  dsimp only
  split
  · exact addHint_ok _ _ _ _ hst
  · exact hst

theorem buttonStep_ok (env : Env) (el : Elem) (st : HintState)
    (h : HintStateOK st) : HintStateOK (buttonStep env el st) := by
  rw [buttonStep]
  refine foldl_ok _ _ ?_ _ _ h
  intro st a hst
  dsimp only
  split
  · exact addHint_ok _ _ _ _ hst
  · exact hst

theorem svgIconStep_ok (env : Env) (el : Elem) (st : HintState)
    (h : HintStateOK st) : HintStateOK (svgIconStep env el st) := by
  rw [svgIconStep]
  refine foldl_ok _ _ ?_ _ _ h
  intro st a hst
  dsimp only
  split
  · exact addHint_ok _ _ _ _ hst
  · exact hst

theorem iconFontStep_ok (env : Env) (el : Elem) (st : HintState)
    (h : HintStateOK st) : HintStateOK (iconFontStep env el st) := by
  rw [iconFontStep]
  refine foldl_ok _ _ ?_ _ _ h
  intro st a hst
  dsimp only
  split
  · exact addHint_ok _ _ _ _ hst
  · exact hst

theorem textStep_ok (env : Env) (el : Elem) (st : HintState)
    (h : HintStateOK st) : HintStateOK (textStep env el st) := by
  rw [textStep]
  dsimp only
  split
  · split
    · exact addHint_ok _ _ _ _ h
    · exact h
  · exact h

theorem initState_ok : HintStateOK (HintState.mk [] 0 0 0 0) := by
  refine ⟨fun t => by cases t <;> rfl, fun t => by cases t <;> decide,
    fun h hh => absurd hh (List.not_mem_nil h)⟩

theorem detectContentHints_ok (env : Env) (el : Elem) :
    (∀ t, countType t (detectContentHints env el) ≤ CONTENT_MAX_COUNTS t) ∧
    (∀ h ∈ detectContentHints env el, hintMeetsMin h = true) := by
  have hok : HintStateOK (textStep env el
      (iconFontStep env el
        (svgIconStep env el
          (buttonStep env el
            (largeSvgStep env el
              (imageStep env el (HintState.mk [] 0 0 0 0))))))) :=
    textStep_ok _ _ _ (iconFontStep_ok _ _ _ (svgIconStep_ok _ _ _
      (buttonStep_ok _ _ _ (largeSvgStep_ok _ _ _
        (imageStep_ok _ _ _ initState_ok)))))
  rw [show detectContentHints env el = (textStep env el
      (iconFontStep env el
        (svgIconStep env el
          (buttonStep env el
            (largeSvgStep env el
              (imageStep env el (HintState.mk [] 0 0 0 0))))))).hints from rfl]
  exact ⟨hok.2.1, hok.2.2⟩

/-! ## Concrete evaluations for the C6 scenario -/

theorem mixedC6_descendants : descendants mixedC6 =
    [svgC6, imgAt 50 3, imgAt 100 4, imgAt 150 5, imgAt 200 6, imgAt 250 7,
     imgAt 300 8] := by
  simp [descendants, preOrderList, preOrder, mixedC6, svgC6, imgAt, Elem.children]

theorem mixedC6_hints : detectContentHints envStd mixedC6 =
    [⟨.image, ⟨50, 0, 40, 40⟩, none⟩, ⟨.image, ⟨100, 0, 40, 40⟩, none⟩,
     ⟨.image, ⟨150, 0, 40, 40⟩, none⟩, ⟨.image, ⟨200, 0, 40, 40⟩, none⟩,
     ⟨.image, ⟨250, 0, 40, 40⟩, none⟩] := by
  have h1 : imageStep envStd mixedC6 (HintState.mk [] 0 0 0 0) =
      HintState.mk [⟨.image, ⟨50, 0, 40, 40⟩, none⟩, ⟨.image, ⟨100, 0, 40, 40⟩, none⟩,
        ⟨.image, ⟨150, 0, 40, 40⟩, none⟩, ⟨.image, ⟨200, 0, 40, 40⟩, none⟩,
        ⟨.image, ⟨250, 0, 40, 40⟩, none⟩] 5 0 0 0 := by
    simp only [imageStep, queryAll, mixedC6_descendants]; with_unfolding_all rfl
  have h2 : largeSvgStep envStd mixedC6
        (HintState.mk [⟨.image, ⟨50, 0, 40, 40⟩, none⟩, ⟨.image, ⟨100, 0, 40, 40⟩, none⟩,
          ⟨.image, ⟨150, 0, 40, 40⟩, none⟩, ⟨.image, ⟨200, 0, 40, 40⟩, none⟩,
          ⟨.image, ⟨250, 0, 40, 40⟩, none⟩] 5 0 0 0) =
      HintState.mk [⟨.image, ⟨50, 0, 40, 40⟩, none⟩, ⟨.image, ⟨100, 0, 40, 40⟩, none⟩,
        ⟨.image, ⟨150, 0, 40, 40⟩, none⟩, ⟨.image, ⟨200, 0, 40, 40⟩, none⟩,
        ⟨.image, ⟨250, 0, 40, 40⟩, none⟩] 5 0 0 0 := by
    simp only [largeSvgStep, queryAll, mixedC6_descendants]; with_unfolding_all rfl
  have h3 : buttonStep envStd mixedC6
        (HintState.mk [⟨.image, ⟨50, 0, 40, 40⟩, none⟩, ⟨.image, ⟨100, 0, 40, 40⟩, none⟩,
          ⟨.image, ⟨150, 0, 40, 40⟩, none⟩, ⟨.image, ⟨200, 0, 40, 40⟩, none⟩,
          ⟨.image, ⟨250, 0, 40, 40⟩, none⟩] 5 0 0 0) =
      HintState.mk [⟨.image, ⟨50, 0, 40, 40⟩, none⟩, ⟨.image, ⟨100, 0, 40, 40⟩, none⟩,
        ⟨.image, ⟨150, 0, 40, 40⟩, none⟩, ⟨.image, ⟨200, 0, 40, 40⟩, none⟩,
        ⟨.image, ⟨250, 0, 40, 40⟩, none⟩] 5 0 0 0 := by
    simp only [buttonStep, queryAll, mixedC6_descendants]; with_unfolding_all rfl
  have h4 : svgIconStep envStd mixedC6
        (HintState.mk [⟨.image, ⟨50, 0, 40, 40⟩, none⟩, ⟨.image, ⟨100, 0, 40, 40⟩, none⟩,
          ⟨.image, ⟨150, 0, 40, 40⟩, none⟩, ⟨.image, ⟨200, 0, 40, 40⟩, none⟩,
          ⟨.image, ⟨250, 0, 40, 40⟩, none⟩] 5 0 0 0) =
      HintState.mk [⟨.image, ⟨50, 0, 40, 40⟩, none⟩, ⟨.image, ⟨100, 0, 40, 40⟩, none⟩,
        ⟨.image, ⟨150, 0, 40, 40⟩, none⟩, ⟨.image, ⟨200, 0, 40, 40⟩, none⟩,
        ⟨.image, ⟨250, 0, 40, 40⟩, none⟩] 5 0 0 0 := by
    simp only [svgIconStep, queryAll, mixedC6_descendants]; with_unfolding_all rfl
  have h5 : iconFontStep envStd mixedC6
        (HintState.mk [⟨.image, ⟨50, 0, 40, 40⟩, none⟩, ⟨.image, ⟨100, 0, 40, 40⟩, none⟩,
          ⟨.image, ⟨150, 0, 40, 40⟩, none⟩, ⟨.image, ⟨200, 0, 40, 40⟩, none⟩,
          ⟨.image, ⟨250, 0, 40, 40⟩, none⟩] 5 0 0 0) =
      HintState.mk [⟨.image, ⟨50, 0, 40, 40⟩, none⟩, ⟨.image, ⟨100, 0, 40, 40⟩, none⟩,
        ⟨.image, ⟨150, 0, 40, 40⟩, none⟩, ⟨.image, ⟨200, 0, 40, 40⟩, none⟩,
        ⟨.image, ⟨250, 0, 40, 40⟩, none⟩] 5 0 0 0 := by
    simp only [iconFontStep, queryAll, mixedC6_descendants]; with_unfolding_all rfl
  have h6 : textStep envStd mixedC6
        (HintState.mk [⟨.image, ⟨50, 0, 40, 40⟩, none⟩, ⟨.image, ⟨100, 0, 40, 40⟩, none⟩,
          ⟨.image, ⟨150, 0, 40, 40⟩, none⟩, ⟨.image, ⟨200, 0, 40, 40⟩, none⟩,
          ⟨.image, ⟨250, 0, 40, 40⟩, none⟩] 5 0 0 0) =
      HintState.mk [⟨.image, ⟨50, 0, 40, 40⟩, none⟩, ⟨.image, ⟨100, 0, 40, 40⟩, none⟩,
        ⟨.image, ⟨150, 0, 40, 40⟩, none⟩, ⟨.image, ⟨200, 0, 40, 40⟩, none⟩,
        ⟨.image, ⟨250, 0, 40, 40⟩, none⟩] 5 0 0 0 := by
    simp only [textStep, queryAll, mixedC6_descendants]; with_unfolding_all rfl
  rw [detectContentHints, detectContentHintsUnsafe, h1, h2, h3, h4, h5, h6]
  rfl

theorem img7C6_descendants : descendants img7C6 =
    [imgAt 0 2, imgAt 50 3, imgAt 100 4, imgAt 150 5, imgAt 200 6, imgAt 250 7,
     imgAt 300 8] := by
  simp [descendants, preOrderList, preOrder, img7C6, imgAt, Elem.children]

theorem img7C6_hints : detectContentHints envStd img7C6 =
    [⟨.image, ⟨0, 0, 40, 40⟩, none⟩, ⟨.image, ⟨50, 0, 40, 40⟩, none⟩,
     ⟨.image, ⟨100, 0, 40, 40⟩, none⟩, ⟨.image, ⟨150, 0, 40, 40⟩, none⟩,
     ⟨.image, ⟨200, 0, 40, 40⟩, none⟩] := by
  have h1 : imageStep envStd img7C6 (HintState.mk [] 0 0 0 0) =
      HintState.mk [⟨.image, ⟨0, 0, 40, 40⟩, none⟩, ⟨.image, ⟨50, 0, 40, 40⟩, none⟩,
        ⟨.image, ⟨100, 0, 40, 40⟩, none⟩, ⟨.image, ⟨150, 0, 40, 40⟩, none⟩,
        ⟨.image, ⟨200, 0, 40, 40⟩, none⟩] 5 0 0 0 := by
    simp only [imageStep, queryAll, img7C6_descendants]; with_unfolding_all rfl
  have h2 : largeSvgStep envStd img7C6
        (HintState.mk [⟨.image, ⟨0, 0, 40, 40⟩, none⟩, ⟨.image, ⟨50, 0, 40, 40⟩, none⟩,
          ⟨.image, ⟨100, 0, 40, 40⟩, none⟩, ⟨.image, ⟨150, 0, 40, 40⟩, none⟩,
          ⟨.image, ⟨200, 0, 40, 40⟩, none⟩] 5 0 0 0) =
      HintState.mk [⟨.image, ⟨0, 0, 40, 40⟩, none⟩, ⟨.image, ⟨50, 0, 40, 40⟩, none⟩,
        ⟨.image, ⟨100, 0, 40, 40⟩, none⟩, ⟨.image, ⟨150, 0, 40, 40⟩, none⟩,
        ⟨.image, ⟨200, 0, 40, 40⟩, none⟩] 5 0 0 0 := by
    simp only [largeSvgStep, queryAll, img7C6_descendants]; with_unfolding_all rfl
  have h3 : buttonStep envStd img7C6
        (HintState.mk [⟨.image, ⟨0, 0, 40, 40⟩, none⟩, ⟨.image, ⟨50, 0, 40, 40⟩, none⟩,
          ⟨.image, ⟨100, 0, 40, 40⟩, none⟩, ⟨.image, ⟨150, 0, 40, 40⟩, none⟩,
          ⟨.image, ⟨200, 0, 40, 40⟩, none⟩] 5 0 0 0) =
      HintState.mk [⟨.image, ⟨0, 0, 40, 40⟩, none⟩, ⟨.image, ⟨50, 0, 40, 40⟩, none⟩,
        ⟨.image, ⟨100, 0, 40, 40⟩, none⟩, ⟨.image, ⟨150, 0, 40, 40⟩, none⟩,
        ⟨.image, ⟨200, 0, 40, 40⟩, none⟩] 5 0 0 0 := by
    simp only [buttonStep, queryAll, img7C6_descendants]; with_unfolding_all rfl
  have h4 : svgIconStep envStd img7C6
        (HintState.mk [⟨.image, ⟨0, 0, 40, 40⟩, none⟩, ⟨.image, ⟨50, 0, 40, 40⟩, none⟩,
          ⟨.image, ⟨100, 0, 40, 40⟩, none⟩, ⟨.image, ⟨150, 0, 40, 40⟩, none⟩,
          ⟨.image, ⟨200, 0, 40, 40⟩, none⟩] 5 0 0 0) =
      HintState.mk [⟨.image, ⟨0, 0, 40, 40⟩, none⟩, ⟨.image, ⟨50, 0, 40, 40⟩, none⟩,
        ⟨.image, ⟨100, 0, 40, 40⟩, none⟩, ⟨.image, ⟨150, 0, 40, 40⟩, none⟩,
        ⟨.image, ⟨200, 0, 40, 40⟩, none⟩] 5 0 0 0 := by
    simp only [svgIconStep, queryAll, img7C6_descendants]; with_unfolding_all rfl
  have h5 : iconFontStep envStd img7C6
        (HintState.mk [⟨.image, ⟨0, 0, 40, 40⟩, none⟩, ⟨.image, ⟨50, 0, 40, 40⟩, none⟩,
          ⟨.image, ⟨100, 0, 40, 40⟩, none⟩, ⟨.image, ⟨150, 0, 40, 40⟩, none⟩,
          ⟨.image, ⟨200, 0, 40, 40⟩, none⟩] 5 0 0 0) =
      HintState.mk [⟨.image, ⟨0, 0, 40, 40⟩, none⟩, ⟨.image, ⟨50, 0, 40, 40⟩, none⟩,
        ⟨.image, ⟨100, 0, 40, 40⟩, none⟩, ⟨.image, ⟨150, 0, 40, 40⟩, none⟩,
        ⟨.image, ⟨200, 0, 40, 40⟩, none⟩] 5 0 0 0 := by
    simp only [iconFontStep, queryAll, img7C6_descendants]; with_unfolding_all rfl
  have h6 : textStep envStd img7C6
        (HintState.mk [⟨.image, ⟨0, 0, 40, 40⟩, none⟩, ⟨.image, ⟨50, 0, 40, 40⟩, none⟩,
          ⟨.image, ⟨100, 0, 40, 40⟩, none⟩, ⟨.image, ⟨150, 0, 40, 40⟩, none⟩,
          ⟨.image, ⟨200, 0, 40, 40⟩, none⟩] 5 0 0 0) =
      HintState.mk [⟨.image, ⟨0, 0, 40, 40⟩, none⟩, ⟨.image, ⟨50, 0, 40, 40⟩, none⟩,
        ⟨.image, ⟨100, 0, 40, 40⟩, none⟩, ⟨.image, ⟨150, 0, 40, 40⟩, none⟩,
        ⟨.image, ⟨200, 0, 40, 40⟩, none⟩] 5 0 0 0 := by
    simp only [textStep, queryAll, img7C6_descendants]; with_unfolding_all rfl
  rw [detectContentHints, detectContentHintsUnsafe, h1, h2, h3, h4, h5, h6]
  rfl

/-! ## Claim C6 -/

/-- C6 (amended): every hint list the extractor returns respects the
per-type caps (at most 5 image, 3 button, 1 text, 6 icon) and every hint
meets its per-type minimum size; and a div with 7 qualifying img
descendants yields exactly 5 image hints, the first 5 img elements in
document order. The original claim's stronger reading — the first 5
qualifying image descendants of any kind — is refuted by
`C6_hint_caps_counterexample`: a large SVG that precedes the imgs in
document order loses to them because the img loop runs before the
large-SVG loop. -/
theorem C6_hint_caps :
    (∀ env el, (∀ t, countType t (detectContentHints env el) ≤ CONTENT_MAX_COUNTS t) ∧
       (∀ h ∈ detectContentHints env el, hintMeetsMin h = true)) ∧
    detectContentHints envStd img7C6 =
      [⟨.image, ⟨0, 0, 40, 40⟩, none⟩, ⟨.image, ⟨50, 0, 40, 40⟩, none⟩,
       ⟨.image, ⟨100, 0, 40, 40⟩, none⟩, ⟨.image, ⟨150, 0, 40, 40⟩, none⟩,
       ⟨.image, ⟨200, 0, 40, 40⟩, none⟩] :=
  ⟨detectContentHints_ok, img7C6_hints⟩

/-- C6 counterexample: in `mixedC6` the document-first qualifying image
descendant is a large SVG, yet the five image hints are the five imgs that
follow it; no hint carries the SVG box. -/
theorem C6_hint_caps_counterexample :
    (descendants mixedC6).head? = some svgC6 ∧
    svgC6.rect.width * svgC6.rect.height > 400 ∧
    detectContentHints envStd mixedC6 =
      [⟨.image, ⟨50, 0, 40, 40⟩, none⟩, ⟨.image, ⟨100, 0, 40, 40⟩, none⟩,
       ⟨.image, ⟨150, 0, 40, 40⟩, none⟩, ⟨.image, ⟨200, 0, 40, 40⟩, none⟩,
       ⟨.image, ⟨250, 0, 40, 40⟩, none⟩] ∧
    (∀ h ∈ detectContentHints envStd mixedC6,
       h.bbox ≠ getElementBoundingBox envStd svgC6) := by
  refine ⟨by rw [mixedC6_descendants]; rfl, by with_unfolding_all decide, mixedC6_hints, ?_⟩
  rw [mixedC6_hints]
  intro h hh
  have hbb : getElementBoundingBox envStd svgC6 = BoundingBox.mk 0 0 40 40 := by
    with_unfolding_all decide
  rw [hbb]
  fin_cases hh <;> with_unfolding_all decide

/-- C6 witness: the caps-and-minimums invariant applied at `img7C6`, for
the image cap and the first produced hint. -/
theorem C6_hint_caps_witness :
    countType .image (detectContentHints envStd img7C6) ≤ CONTENT_MAX_COUNTS .image ∧
    hintMeetsMin ⟨.image, ⟨0, 0, 40, 40⟩, none⟩ = true :=
  ⟨(C6_hint_caps.1 envStd img7C6).1 .image,
   (C6_hint_caps.1 envStd img7C6).2 ⟨.image, ⟨0, 0, 40, 40⟩, none⟩
     (by rw [img7C6_hints]; exact List.mem_cons_self _ _)⟩

/-! ## Document-order machinery (C3) -/

theorem spos_eq (el : Elem) : spos el = el.docPos :: sposList el.children := by
  rw [spos, sposList, preOrder_eq, List.map_cons]

theorem sposList_nil : sposList [] = [] := by
  rw [sposList, preOrderList_nil]; rfl

theorem sposList_cons (c : Elem) (cs : List Elem) :
    sposList (c :: cs) = spos c ++ sposList cs := by
  rw [sposList, preOrderList_cons, List.map_append, spos, sposList]

theorem materializeNode_children (env : Env) (el : Elem) (d : Nat) (bbox : BoundingBox)
    (g : Bool) (cs : List WireframeNode) :
    (materializeNode env el d bbox g cs).children = cs := rfl

theorem materializeNode_srcPos (env : Env) (el : Elem) (d : Nat) (bbox : BoundingBox)
    (g : Bool) (cs : List WireframeNode) :
    (materializeNode env el d bbox g cs).srcPos = el.docPos := rfl

theorem childrenSorted_materialize (env : Env) (el : Elem) (d : Nat) (bbox : BoundingBox)
    (g : Bool) (cs : List WireframeNode) :
    childrenSorted (materializeNode env el d bbox g cs) =
      decide (List.Pairwise (fun a b => a < b) (cs.map WireframeNode.srcPos)) := rfl

theorem nodeAll_materialize (p : WireframeNode → Bool) (env : Env) (el : Elem) (d : Nat)
    (bbox : BoundingBox) (g : Bool) (cs : List WireframeNode) :
    nodeAll p (materializeNode env el d bbox g cs) = true ↔
      (p (materializeNode env el d bbox g cs) = true ∧ ∀ c ∈ cs, nodeAll p c = true) := by
  rw [nodeAll_eq, Bool.and_eq_true, materializeNode_children, nodeAllList_iff]

mutual

theorem bnt_sorted (env : Env) (va : ℚ) (cfg : AnalyzerConfig) (el : Elem) (d : Nat)
    (n : WireframeNode)
    (hord : List.Pairwise (fun a b => a < b) (spos el))
    (hgf : ∀ e ∈ preOrder el, detectGridItems e = none)
    (h : buildNodeTree env el d va cfg false = some n) :
    nodeAll childrenSorted n = true ∧ n.srcPos ∈ spos el := by
  rw [buildNodeTree] at h
  by_cases h1 : d > cfg.maxDepth
  · rw [if_pos ⟨h1, rfl⟩] at h; exact absurd h (by simp)
  · rw [if_neg (by simp [h1])] at h
    by_cases h2 : isElementVisible el = false
    · rw [if_pos h2] at h; exact absurd h (by simp)
    · rw [if_neg h2] at h
      dsimp only at h
      simp only [Bool.false_or] at h
      simp only [show (false = true) = False from by simp, if_false] at h
      split at h
      case _ items heq =>
        simp only [Bool.false_or] at heq
        have heqD : detectGridItems el = some items := by
          by_cases hc : isSignificant env el va cfg = true
          · rwa [if_pos (show _ ∧ True from ⟨hc, trivial⟩)] at heq
          · rw [if_neg (fun hh => hc hh.1)] at heq
            exact absurd heq (by simp)
        have hnone := hgf el (by rw [preOrder_eq]; exact List.mem_cons_self _ _)
        rw [hnone] at heqD
        exact absurd heqD (by simp)
      case _ heq =>
        clear heq
        have hordc : List.Pairwise (fun a b => a < b) (sposList el.children) := by
          rw [spos_eq] at hord
          exact hord.of_cons
        have hgfc : ∀ e ∈ preOrderList el.children, detectGridItems e = none := by
          intro e he
          exact hgf e (by rw [preOrder_eq]; exact List.mem_cons_of_mem _ he)
        have hself : el.docPos ∈ spos el := by
          rw [spos_eq]; exact List.mem_cons_self _ _
        by_cases hsig : isSignificant env el va cfg = true
        · rw [if_neg (by simp [hsig])] at h
          rw [if_pos hsig] at h
          obtain hn : _ = n := Option.some.inj h
          have IH := bcl_sorted env va cfg el.children (d + 1) hordc hgfc
          rcases hB : buildChildList env el.children (d + 1) va cfg
              with _ | ⟨c, _ | ⟨c2, rest⟩⟩
          · rw [hB] at hn
            rw [if_neg (by simp)] at hn
            rw [Option.getD_none] at hn
            rw [← hn]
            refine ⟨(nodeAll_materialize _ _ _ _ _ _ _).mpr ⟨?_, by simp⟩, ?_⟩
            · rw [childrenSorted_materialize]
              simp
            · rw [materializeNode_srcPos]
              exact hself
          · rw [hB] at hn
            have hcmem : c ∈ buildChildList env el.children (d + 1) va cfg := by
              rw [hB]; exact List.mem_singleton.mpr rfl
            have hc1 := IH.1 c hcmem
            have hc3 : c.srcPos ∈ spos el := by
              rw [spos_eq]
              exact List.mem_cons_of_mem _ (IH.2.2 c hcmem)
            have hmatc : nodeAll childrenSorted
                  (materializeNode env el d (getAbsoluteBoundingBox env el) false [c]) =
                    true ∧
                (materializeNode env el d (getAbsoluteBoundingBox env el) false
                  [c]).srcPos ∈ spos el := by
              refine ⟨(nodeAll_materialize _ _ _ _ _ _ _).mpr ⟨?_, ?_⟩, ?_⟩
              · rw [childrenSorted_materialize]
                simp
              · intro x hx
                rcases List.mem_singleton.mp hx with rfl
                exact hc1
              · rw [materializeNode_srcPos]
                exact hself
            rw [if_pos (by simp)] at hn
            simp only [List.head?_cons, Option.some_bind] at hn
            by_cases hb1 : bboxesSimilar (getAbsoluteBoundingBox env el) c.bbox = true
            · rw [if_pos hb1] at hn
              by_cases hb2 : isLandmark el = false ∧ c.isLandmark = true
              · rw [if_pos hb2, Option.getD_some] at hn
                rw [← hn]
                exact ⟨hc1, hc3⟩
              · rw [if_neg hb2] at hn
                by_cases hb3 : (generateLabel el = "Block" ∨ generateLabel el = "Section") ∧
                    c.label ≠ "Block" ∧ c.label ≠ "Section"
                · rw [if_pos hb3, Option.getD_some] at hn
                  rw [← hn]
                  exact ⟨hc1, hc3⟩
                · rw [if_neg hb3, Option.getD_none] at hn
                  rw [← hn]
                  exact hmatc
            · rw [if_neg hb1, Option.getD_none] at hn
              rw [← hn]
              exact hmatc
          · rw [hB] at hn
            rw [if_neg (by simp)] at hn
            rw [Option.getD_none] at hn
            rw [← hn]
            refine ⟨(nodeAll_materialize _ _ _ _ _ _ _).mpr ⟨?_, ?_⟩, ?_⟩
            · rw [childrenSorted_materialize]
              have := IH.2.1
              rw [hB] at this
              exact decide_eq_true this
            · intro x hx
              rw [← hB] at hx
              exact IH.1 x hx
            · rw [materializeNode_srcPos]
              exact hself
        · have hsigf : isSignificant env el va cfg = false := by
            revert hsig; cases isSignificant env el va cfg <;> simp
          rw [if_neg hsig] at h
          rw [if_pos hsigf] at h
          have IH := bcl_sorted env va cfg el.children d hordc hgfc
          rcases hB : buildChildList env el.children d va cfg
              with _ | ⟨c, _ | ⟨c2, rest⟩⟩
          · rw [hB] at h
            rw [if_neg (by simp)] at h
            exact absurd h (by simp)
          · rw [hB] at h
            rw [if_pos (by simp)] at h
            simp only [List.head?_cons] at h
            have hcn : c = n := Option.some.inj h
            have hcmem : c ∈ buildChildList env el.children d va cfg := by
              rw [hB]; exact List.mem_singleton.mpr rfl
            rw [← hcn]
            refine ⟨IH.1 c hcmem, ?_⟩
            rw [spos_eq]
            exact List.mem_cons_of_mem _ (IH.2.2 c hcmem)
          · rw [hB] at h
            rw [if_neg (by simp)] at h
            exact absurd h (by simp)
termination_by sizeOf el
decreasing_by
  all_goals exact el.sizeOf_children_lt

theorem bcl_sorted (env : Env) (va : ℚ) (cfg : AnalyzerConfig) (l : List Elem) (d : Nat)
    (hord : List.Pairwise (fun a b => a < b) (sposList l))
    (hgf : ∀ e ∈ preOrderList l, detectGridItems e = none) :
    (∀ n ∈ buildChildList env l d va cfg, nodeAll childrenSorted n = true) ∧
    List.Pairwise (fun a b => a < b)
      ((buildChildList env l d va cfg).map WireframeNode.srcPos) ∧
    (∀ n ∈ buildChildList env l d va cfg, n.srcPos ∈ sposList l) := by
  match l with
  | [] =>
      rw [buildChildList]
      exact ⟨fun n hn => absurd hn (by simp), by simp,
        fun n hn => absurd hn (by simp)⟩
  | c :: cs =>
      have hdec : List.Pairwise (fun a b => a < b) (spos c) ∧
          List.Pairwise (fun a b => a < b) (sposList cs) ∧
          ∀ a ∈ spos c, ∀ b ∈ sposList cs, a < b := by
        rw [sposList_cons] at hord
        exact List.pairwise_append.mp hord
      have hgfc : ∀ e ∈ preOrder c, detectGridItems e = none := by
        intro e he
        exact hgf e (by rw [preOrderList_cons]; exact List.mem_append_left _ he)
      have hgfcs : ∀ e ∈ preOrderList cs, detectGridItems e = none := by
        intro e he
        exact hgf e (by rw [preOrderList_cons]; exact List.mem_append_right _ he)
      have IH := bcl_sorted env va cfg cs d hdec.2.1 hgfcs
      rw [buildChildList]
      by_cases hk : (c.kind == EKind.html) = true
      · rw [if_pos hk]
        rcases hbc : buildNodeTree env c d va cfg false with _ | nc
        · refine ⟨IH.1, IH.2.1, ?_⟩
          intro n hn
          rw [sposList_cons]
          exact List.mem_append_right _ (IH.2.2 n hn)
        · have hc := bnt_sorted env va cfg c d nc hdec.1 hgfc hbc
          refine ⟨?_, ?_, ?_⟩
          · intro n hn
            rcases List.mem_cons.mp hn with rfl | hn
            · exact hc.1
            · exact IH.1 n hn
          · rw [List.map_cons]
            refine List.pairwise_cons.mpr ⟨?_, IH.2.1⟩
            intro m hm
            obtain ⟨n', hn', rfl⟩ := List.mem_map.mp hm
            exact hdec.2.2 _ hc.2 _ (IH.2.2 n' hn')
          · intro n hn
            rcases List.mem_cons.mp hn with rfl | hn
            · rw [sposList_cons]
              exact List.mem_append_left _ hc.2
            · rw [sposList_cons]
              exact List.mem_append_right _ (IH.2.2 n hn)
      · rw [if_neg hk]
        refine ⟨IH.1, IH.2.1, ?_⟩
        intro n hn
        rw [sposList_cons]
        exact List.mem_append_right _ (IH.2.2 n hn)
termination_by sizeOf l
decreasing_by
  all_goals (simp; try omega)

end

/-! ## Concrete evaluations for the C3 scenario -/

theorem cardC3a_hints : detectContentHints envStd cardC3a = [] := by
  simp only [detectContentHints, catchHints, detectContentHintsUnsafe, imageStep,
    largeSvgStep, buttonStep, svgIconStep, iconFontStep, textStep, queryAll,
    descendants, preOrderList, cardC3a, Elem.children]
  with_unfolding_all rfl

theorem cardC3b_hints : detectContentHints envStd cardC3b = [] := by
  simp only [detectContentHints, catchHints, detectContentHintsUnsafe, imageStep,
    largeSvgStep, buttonStep, svgIconStep, iconFontStep, textStep, queryAll,
    descendants, preOrderList, cardC3b, Elem.children]
  with_unfolding_all rfl

theorem hdrC3_hints : detectContentHints envStd hdrC3 = [] := by
  simp only [detectContentHints, catchHints, detectContentHintsUnsafe, imageStep,
    largeSvgStep, buttonStep, svgIconStep, iconFontStep, textStep, queryAll,
    descendants, preOrderList, hdrC3, Elem.children]
  with_unfolding_all rfl

theorem cardC3a_build : buildNodeTree envStd cardC3a 1 (1280 * 800) DEFAULT_CONFIG true =
    some cardC3aNode := by
  have hlbl : inferGridItemLabel cardC3a = "Card" := by with_unfolding_all decide
  rw [buildNodeTree]
  simp only [buildChildList_eq, materializeNode, cardC3a_hints, hlbl]
  with_unfolding_all rfl

theorem cardC3b_build : buildNodeTree envStd cardC3b 1 (1280 * 800) DEFAULT_CONFIG true =
    some cardC3bNode := by
  have hlbl : inferGridItemLabel cardC3b = "Card" := by with_unfolding_all decide
  rw [buildNodeTree]
  simp only [buildChildList_eq, materializeNode, cardC3b_hints, hlbl]
  with_unfolding_all rfl

theorem hdrC3_build : buildNodeTree envStd hdrC3 1 (1280 * 800) DEFAULT_CONFIG false =
    some hdrC3Node := by
  have hlbl : generateLabel hdrC3 = "Header" := by with_unfolding_all decide
  have hsem : getSemanticType hdrC3 "Header" = SemanticType.header := by
    with_unfolding_all decide
  rw [buildNodeTree]
  simp only [buildChildList_eq, materializeNode, hdrC3_hints, hlbl, hsem]
  with_unfolding_all rfl

theorem mainC3_gd : detectGridItems mainC3 = some [cardC3a, cardC3b] := by
  with_unfolding_all rfl

theorem mainC3_descendants : descendants mainC3 = [hdrC3, cardC3a, cardC3b] := by
  simp [descendants, preOrderList, preOrder, mainC3, hdrC3, cardC3a, cardC3b,
    Elem.children]

theorem mainC3_hints : detectContentHints envStd mainC3 = [] := by
  have h1 : imageStep envStd mainC3 (HintState.mk [] 0 0 0 0) = HintState.mk [] 0 0 0 0 := by
    simp only [imageStep, queryAll, mainC3_descendants]; with_unfolding_all rfl
  have h2 : largeSvgStep envStd mainC3 (HintState.mk [] 0 0 0 0) = HintState.mk [] 0 0 0 0 := by
    simp only [largeSvgStep, queryAll, mainC3_descendants]; with_unfolding_all rfl
  have h3 : buttonStep envStd mainC3 (HintState.mk [] 0 0 0 0) = HintState.mk [] 0 0 0 0 := by
    simp only [buttonStep, queryAll, mainC3_descendants]; with_unfolding_all rfl
  have h4 : svgIconStep envStd mainC3 (HintState.mk [] 0 0 0 0) = HintState.mk [] 0 0 0 0 := by
    simp only [svgIconStep, queryAll, mainC3_descendants]; with_unfolding_all rfl
  have h5 : iconFontStep envStd mainC3 (HintState.mk [] 0 0 0 0) = HintState.mk [] 0 0 0 0 := by
    simp only [iconFontStep, queryAll, mainC3_descendants]; with_unfolding_all rfl
  have h6 : textStep envStd mainC3 (HintState.mk [] 0 0 0 0) = HintState.mk [] 0 0 0 0 := by
    simp only [textStep, queryAll, mainC3_descendants]; with_unfolding_all rfl
  rw [detectContentHints, detectContentHintsUnsafe, h1, h2, h3, h4, h5, h6]
  rfl

theorem mainC3_build : buildNodeTree envStd mainC3 0 (1280 * 800) DEFAULT_CONFIG false =
    some mainC3Node := by
  have h := buildNodeTree_sig_grid envStd mainC3 0 (1280 * 800) DEFAULT_CONFIG
    [cardC3a, cardC3b] (by with_unfolding_all decide)
    (by with_unfolding_all decide) (by with_unfolding_all decide) mainC3_gd
  rw [h]
  have hch : mainC3.children = [hdrC3, cardC3a, cardC3b] := rfl
  have hlh : (hdrC3.kind == EKind.html && isLandmark hdrC3) = true := by
    with_unfolding_all rfl
  have hla : (cardC3a.kind == EKind.html && isLandmark cardC3a) = false := by
    with_unfolding_all rfl
  have hlb : (cardC3b.kind == EKind.html && isLandmark cardC3b) = false := by
    with_unfolding_all rfl
  have hlbl : generateLabel mainC3 = "Main Content" := by with_unfolding_all decide
  have hsem : getSemanticType mainC3 "Main Content" = SemanticType.content := by
    with_unfolding_all decide
  simp only [Nat.zero_add, buildGridList_eq, List.flatMap_cons, List.flatMap_nil,
    cardC3a_build, cardC3b_build, Option.toList_some, buildLandmarkList_eq, hch,
    hlh, hla, hlb, if_true, Bool.false_eq_true, if_false, hdrC3_build,
    List.append_nil, materializeNode, mainC3_hints, hlbl, hsem]
  with_unfolding_all rfl

/-! ## Claim C3 -/

/-- C3 (amended): when the element tree is properly pre-order numbered and
no element of it yields a grid result, every node the analyzer builds has
its children in strict document order at every level, and the root node
list of `analyzeDom` is likewise in document order. The original claim
also covered grid containers, and is refuted there by
`C3_document_order_counterexample`: a grid container's children list puts
the grid-item nodes before a landmark child that precedes them in the
document. -/
theorem C3_document_order :
    (∀ env el d va cfg n,
       List.Pairwise (fun a b => a < b) (spos el) →
       (∀ e ∈ preOrder el, detectGridItems e = none) →
       buildNodeTree env el d va cfg false = some n →
       nodeAll childrenSorted n = true) ∧
    (∀ env body cfg2,
       List.Pairwise (fun a b => a < b) (spos body) →
       (∀ e ∈ preOrder body, detectGridItems e = none) →
       List.Pairwise (fun a b => a < b)
         ((analyzeDom env body cfg2).nodes.map WireframeNode.srcPos) ∧
       ∀ n ∈ (analyzeDom env body cfg2).nodes, nodeAll childrenSorted n = true) := by
  constructor
  · intro env el d va cfg n hord hgf h
    exact (bnt_sorted env va cfg el d n hord hgf h).1
  · intro env body cfg2 hord hgf
    have hordc : List.Pairwise (fun a b => a < b) (sposList body.children) := by
      rw [spos_eq] at hord
      exact hord.of_cons
    have hgfc : ∀ e ∈ preOrderList body.children, detectGridItems e = none := by
      intro e he
      exact hgf e (by rw [preOrder_eq]; exact List.mem_cons_of_mem _ he)
    have H := bcl_sorted env (env.innerWidth * env.innerHeight)
      (mergeConfig DEFAULT_CONFIG cfg2) body.children 0 hordc hgfc
    have hnodes : (analyzeDom env body cfg2).nodes =
        buildChildList env body.children 0 (env.innerWidth * env.innerHeight)
          (mergeConfig DEFAULT_CONFIG cfg2) := rfl
    rw [hnodes]
    exact ⟨H.2.1, H.1⟩

/-- C3 counterexample: `mainC3` is properly document-ordered, yet its
built children carry source positions 3, 4, 2 — the excluded landmark
child is appended after the grid items that follow it in the document. -/
theorem C3_document_order_counterexample :
    List.Pairwise (fun a b => a < b) (spos mainC3) ∧
    buildNodeTree envStd mainC3 0 (1280 * 800) DEFAULT_CONFIG false = some mainC3Node ∧
    mainC3Node.children.map WireframeNode.srcPos = [3, 4, 2] ∧
    childrenSorted mainC3Node = false := by
  have hspos : spos mainC3 = [1, 2, 3, 4] := by
    rw [spos]
    simp only [preOrder, preOrderList, mainC3, hdrC3, cardC3a, cardC3b,
      Elem.children]
    with_unfolding_all rfl
  refine ⟨by rw [hspos]; decide, mainC3_build, rfl, by with_unfolding_all decide⟩

/-- C3 witness: the document-order theorem applied at the grid-free
`hdrC2` tree. -/
theorem C3_document_order_witness :
    List.Pairwise (fun a b => a < b) (spos hdrC2) ∧
    (∀ e ∈ preOrder hdrC2, detectGridItems e = none) ∧
    nodeAll childrenSorted hdrC2Node = true := by
  have hpre : preOrder hdrC2 = [hdrC2, divC2, navC2] := by
    simp [preOrder, preOrderList, hdrC2, divC2, navC2, Elem.children]
  have hspos : spos hdrC2 = [1, 2, 3] := by
    rw [spos, hpre]
    with_unfolding_all rfl
  have hgf : ∀ e ∈ preOrder hdrC2, detectGridItems e = none := by
    intro e he
    rw [hpre] at he
    fin_cases he <;> with_unfolding_all rfl
  refine ⟨by rw [hspos]; decide, hgf, ?_⟩
  exact C3_document_order.1 envStd hdrC2 0 (1280 * 800) DEFAULT_CONFIG hdrC2Node
    (by rw [hspos]; decide) hgf hdrC2_build
